import Mathlib

/-!
Verification of the host-CPU detection logic of `lib/Support/Host.cpp`.

The C++ source is shallowly embedded: machine integers become `Nat` (the
C code never overflows the 32-bit registers in the operations modelled
here), the CPUID/XGETBV hardware queries become an explicit `Machine`
record of register values, `/proc/cpuinfo` text becomes `List Char`, and
locals that the C code leaves uninitialized until a `switch` assigns them
(`Type`/`Subtype` in `getHostCPUName`) become `Option Nat` starting at
`none`.  `llvm_unreachable` is modelled as `Except.error ()`.

Definitions come first, all theorems afterwards.
-/

/-! ### Bitmask helpers

The C code tests feature bits with `Features & (1 << k)` (truthiness,
i.e. `≠ 0`) and sets them with `Features |= 1 << k` under a condition.
`testF` and `bitIf` mirror those two idioms. -/

/-- Test of `f & (1 << k)` as the C code writes it. -/
def testF (f k : Nat) : Bool := (f &&& (1 <<< k)) != 0

/-- Conditional bit contribution: `c ? (1 << k) : 0`, so that the C
statement `if (c) F |= 1 << k;` becomes `F ||| bitIf c k`. -/
def bitIf (c : Bool) (k : Nat) : Nat := if c then 1 <<< k else 0

/-! ### detectX86FamilyModel (Host.cpp lines 564-575) -/

/-- Embedding of `detectX86FamilyModel`: base family from EAX bits 8-11,
base model from bits 4-7; for base family 6 or 0xF the extended model
(bits 16-19, shifted left 4) is folded in, and for base family 0xF the
extended family (bits 20-27) is added. -/
def detectX86FamilyModel (EAX : Nat) : Nat × Nat :=
  let Family := (EAX >>> 8) &&& 0xf
  let Model := (EAX >>> 4) &&& 0xf
  if Family = 6 ∨ Family = 0xf then
    let Family2 := if Family = 0xf then Family + ((EAX >>> 20) &&& 0xff) else Family
    let Model2 := Model + (((EAX >>> 16) &&& 0xf) <<< 4)
    (Family2, Model2)
  else
    (Family, Model)

/-! ### Feature bit positions (enum ProcessorFeatures, Host.cpp lines 394-432) -/

def FEATURE_CMOV : Nat := 0
def FEATURE_MMX : Nat := 1
def FEATURE_POPCNT : Nat := 2
def FEATURE_SSE : Nat := 3
def FEATURE_SSE2 : Nat := 4
def FEATURE_SSE3 : Nat := 5
def FEATURE_SSSE3 : Nat := 6
def FEATURE_SSE4_1 : Nat := 7
def FEATURE_SSE4_2 : Nat := 8
def FEATURE_AVX : Nat := 9
def FEATURE_AVX2 : Nat := 10
def FEATURE_SSE4_A : Nat := 11
def FEATURE_FMA4 : Nat := 12
def FEATURE_XOP : Nat := 13
def FEATURE_FMA : Nat := 14
def FEATURE_AVX512F : Nat := 15
def FEATURE_BMI : Nat := 16
def FEATURE_BMI2 : Nat := 17
def FEATURE_AES : Nat := 18
def FEATURE_PCLMUL : Nat := 19
def FEATURE_AVX512VL : Nat := 20
def FEATURE_AVX512BW : Nat := 21
def FEATURE_AVX512DQ : Nat := 22
def FEATURE_AVX512CD : Nat := 23
def FEATURE_AVX512ER : Nat := 24
def FEATURE_AVX512PF : Nat := 25
def FEATURE_AVX512VBMI : Nat := 26
def FEATURE_AVX512IFMA : Nat := 27
def FEATURE_AVX5124VNNIW : Nat := 28
def FEATURE_AVX5124FMAPS : Nat := 29
def FEATURE_AVX512VPOPCNTDQ : Nat := 30
def FEATURE_MOVBE : Nat := 32
def FEATURE_ADX : Nat := 33
def FEATURE_EM64T : Nat := 34
def FEATURE_CLFLUSHOPT : Nat := 35
def FEATURE_SHA : Nat := 36

/-! ### The hardware-query model

`getX86CpuIDAndInfo`/`getX86CpuIDAndInfoEx` fail (return `true` in C)
exactly when the platform cannot issue CPUID at all, never per leaf, so
the model carries one flag `cpuidOk` plus the register file `cpuid`,
and XGETBV is `xcr0` (`none` = the query is unavailable). -/

structure Regs where
  eax : Nat
  ebx : Nat
  ecx : Nat
  edx : Nat

structure Machine where
  cpuidOk : Bool
  cpuid : Nat → Nat → Regs
  xcr0 : Option (Nat × Nat)

/-- Mask of the XSAVE/OSXSAVE CPUID bits (`AVXBits` in Host.cpp line 1014). -/
def AVXBits : Nat := (1 <<< 27) ||| (1 <<< 28)

/-- Embedding of `HasAVX` (Host.cpp lines 1015-1016): leaf-1 ECX has both
AVX-save bits, XGETBV succeeds, and XCR0 reports SSE+YMM state enabled. -/
def hasAVX (ECX : Nat) (m : Machine) : Bool :=
  ((ECX &&& AVXBits) == AVXBits) &&
    (match m.xcr0 with
     | some r => (r.1 &&& 0x6) == 0x6
     | none => false)

/-- Embedding of `HasAVX512Save` (Host.cpp line 1017): `HasAVX` plus the
ZMM-state bits 5-7 of XCR0. -/
def hasAVX512Save (ECX : Nat) (m : Machine) : Bool :=
  hasAVX ECX m &&
    (match m.xcr0 with
     | some r => (r.1 &&& 0xe0) == 0xe0
     | none => false)

/-- Embedding of `HasLeaf7` (Host.cpp lines 1022-1023). -/
def hasLeaf7 (MaxLeaf : Nat) (m : Machine) : Bool :=
  decide (0x7 ≤ MaxLeaf) && m.cpuidOk

/-- Value of EAX returned by CPUID leaf 0x80000000 (Host.cpp line 1065). -/
def maxExtLevel (m : Machine) : Nat := (m.cpuid 0x80000000 0).eax

/-- Embedding of `HasExtLeaf1` (Host.cpp lines 1067-1068). -/
def hasExtLeaf1 (m : Machine) : Bool :=
  decide (0x80000001 ≤ maxExtLevel m) && m.cpuidOk

/-! ### getAvailableFeatures (Host.cpp lines 975-1081) -/

/-- Embedding of `getAvailableFeatures`: returns the `(Features,
Features2)` bitmask pair.  Every `if (cond) Features |= 1 << k;` of the
source becomes one `bitIf cond k` disjunct, in source order. -/
def getAvailableFeatures (ECX EDX MaxLeaf : Nat) (m : Machine) : Nat × Nat :=
  let hAVX := hasAVX ECX m
  let hAVX512 := hasAVX512Save ECX m
  let l7 := hasLeaf7 MaxLeaf m
  let r7 := m.cpuid 0x7 0
  let e1 := hasExtLeaf1 m
  let re1 := m.cpuid 0x80000001 0
  let Features :=
    bitIf (((EDX >>> 15) &&& 1) != 0) FEATURE_CMOV |||
    bitIf (((EDX >>> 23) &&& 1) != 0) FEATURE_MMX |||
    bitIf (((EDX >>> 25) &&& 1) != 0) FEATURE_SSE |||
    bitIf (((EDX >>> 26) &&& 1) != 0) FEATURE_SSE2 |||
    bitIf (((ECX >>> 0) &&& 1) != 0) FEATURE_SSE3 |||
    bitIf (((ECX >>> 1) &&& 1) != 0) FEATURE_PCLMUL |||
    bitIf (((ECX >>> 9) &&& 1) != 0) FEATURE_SSSE3 |||
    bitIf (((ECX >>> 12) &&& 1) != 0) FEATURE_FMA |||
    bitIf (((ECX >>> 19) &&& 1) != 0) FEATURE_SSE4_1 |||
    bitIf (((ECX >>> 20) &&& 1) != 0) FEATURE_SSE4_2 |||
    bitIf (((ECX >>> 23) &&& 1) != 0) FEATURE_POPCNT |||
    bitIf (((ECX >>> 25) &&& 1) != 0) FEATURE_AES |||
    bitIf hAVX FEATURE_AVX |||
    bitIf (l7 && ((r7.ebx >>> 3) &&& 1) != 0) FEATURE_BMI |||
    bitIf (l7 && ((r7.ebx >>> 5) &&& 1) != 0 && hAVX) FEATURE_AVX2 |||
    bitIf (l7 && ((r7.ebx >>> 9) &&& 1) != 0) FEATURE_BMI2 |||
    bitIf (l7 && ((r7.ebx >>> 16) &&& 1) != 0 && hAVX512) FEATURE_AVX512F |||
    bitIf (l7 && ((r7.ebx >>> 17) &&& 1) != 0 && hAVX512) FEATURE_AVX512DQ |||
    bitIf (l7 && ((r7.ebx >>> 21) &&& 1) != 0 && hAVX512) FEATURE_AVX512IFMA |||
    bitIf (l7 && ((r7.ebx >>> 26) &&& 1) != 0 && hAVX512) FEATURE_AVX512PF |||
    bitIf (l7 && ((r7.ebx >>> 27) &&& 1) != 0 && hAVX512) FEATURE_AVX512ER |||
    bitIf (l7 && ((r7.ebx >>> 28) &&& 1) != 0 && hAVX512) FEATURE_AVX512CD |||
    bitIf (l7 && ((r7.ebx >>> 30) &&& 1) != 0 && hAVX512) FEATURE_AVX512BW |||
    bitIf (l7 && ((r7.ebx >>> 31) &&& 1) != 0 && hAVX512) FEATURE_AVX512VL |||
    bitIf (l7 && ((r7.ecx >>> 1) &&& 1) != 0 && hAVX512) FEATURE_AVX512VBMI |||
    bitIf (l7 && ((r7.ecx >>> 14) &&& 1) != 0 && hAVX512) FEATURE_AVX512VPOPCNTDQ |||
    bitIf (l7 && ((r7.edx >>> 2) &&& 1) != 0 && hAVX512) FEATURE_AVX5124VNNIW |||
    bitIf (l7 && ((r7.edx >>> 3) &&& 1) != 0 && hAVX512) FEATURE_AVX5124FMAPS |||
    bitIf (e1 && ((re1.ecx >>> 6) &&& 1) != 0) FEATURE_SSE4_A |||
    bitIf (e1 && ((re1.ecx >>> 11) &&& 1) != 0) FEATURE_XOP |||
    bitIf (e1 && ((re1.ecx >>> 16) &&& 1) != 0) FEATURE_FMA4
  let Features2 :=
    bitIf (((ECX >>> 22) &&& 1) != 0) (FEATURE_MOVBE - 32) |||
    bitIf (l7 && ((r7.ebx >>> 19) &&& 1) != 0) (FEATURE_ADX - 32) |||
    bitIf (l7 && ((r7.ebx >>> 23) &&& 1) != 0) (FEATURE_CLFLUSHOPT - 32) |||
    bitIf (l7 && ((r7.ebx >>> 29) &&& 1) != 0) (FEATURE_SHA - 32) |||
    bitIf (e1 && ((re1.edx >>> 29) &&& 1) != 0) (FEATURE_EM64T - 32)
  (Features, Features2)

/-! ### getHostCPUFeatures, x86 variant (Host.cpp lines 1377-1482) -/

/-- Embedding of `HasAVXSave` (Host.cpp lines 1410-1411). -/
def hasAVXSave (ECX : Nat) (m : Machine) : Bool :=
  ((ECX >>> 27) &&& 1) != 0 && ((ECX >>> 28) &&& 1) != 0 &&
    (match m.xcr0 with
     | some r => (r.1 &&& 0x6) == 0x6
     | none => false)

/-- Embedding of `HasAVX512Save` of `getHostCPUFeatures` (Host.cpp
line 1420). -/
def hasAVX512SaveHF (ECX : Nat) (m : Machine) : Bool :=
  hasAVXSave ECX m &&
    (match m.xcr0 with
     | some r => (r.1 &&& 0xe0) == 0xe0
     | none => false)

/-- Embedding of the x86 `sys::getHostCPUFeatures`: `none` models the
`return false` paths (CPUID unavailable or max leaf < 1); otherwise the
`StringMap` assignments in source order (all keys are distinct). -/
def getHostCPUFeatures (m : Machine) : Option (List (String × Bool)) :=
  if !m.cpuidOk then none
  else
    let MaxLevel := (m.cpuid 0 0).eax
    if MaxLevel < 1 then none
    else
      let r1 := m.cpuid 1 0
      let ECX := r1.ecx
      let EDX := r1.edx
      let hSave := hasAVXSave ECX m
      let h512 := hasAVX512SaveHF ECX m
      let e1 := hasExtLeaf1 m
      let re1 := m.cpuid 0x80000001 0
      let e8 := decide (0x80000008 ≤ maxExtLevel m) && m.cpuidOk
      let re8 := m.cpuid 0x80000008 0
      let l7 := decide (7 ≤ MaxLevel) && m.cpuidOk
      let r7 := m.cpuid 0x7 0
      let lD := decide (0xd ≤ MaxLevel) && m.cpuidOk
      let rD := m.cpuid 0xd 1
      some [
        ("cmov", ((EDX >>> 15) &&& 1) != 0),
        ("mmx", ((EDX >>> 23) &&& 1) != 0),
        ("sse", ((EDX >>> 25) &&& 1) != 0),
        ("sse2", ((EDX >>> 26) &&& 1) != 0),
        ("sse3", ((ECX >>> 0) &&& 1) != 0),
        ("ssse3", ((ECX >>> 9) &&& 1) != 0),
        ("sse4.1", ((ECX >>> 19) &&& 1) != 0),
        ("sse4.2", ((ECX >>> 20) &&& 1) != 0),
        ("pclmul", ((ECX >>> 1) &&& 1) != 0),
        ("cx16", ((ECX >>> 13) &&& 1) != 0),
        ("movbe", ((ECX >>> 22) &&& 1) != 0),
        ("popcnt", ((ECX >>> 23) &&& 1) != 0),
        ("aes", ((ECX >>> 25) &&& 1) != 0),
        ("rdrnd", ((ECX >>> 30) &&& 1) != 0),
        ("avx", hSave),
        ("fma", hSave && ((ECX >>> 12) &&& 1) != 0),
        ("f16c", hSave && ((ECX >>> 29) &&& 1) != 0),
        ("xsave", hSave && ((ECX >>> 26) &&& 1) != 0),
        ("lzcnt", e1 && ((re1.ecx >>> 5) &&& 1) != 0),
        ("sse4a", e1 && ((re1.ecx >>> 6) &&& 1) != 0),
        ("prfchw", e1 && ((re1.ecx >>> 8) &&& 1) != 0),
        ("xop", e1 && ((re1.ecx >>> 11) &&& 1) != 0 && hSave),
        ("lwp", e1 && ((re1.ecx >>> 15) &&& 1) != 0),
        ("fma4", e1 && ((re1.ecx >>> 16) &&& 1) != 0 && hSave),
        ("tbm", e1 && ((re1.ecx >>> 21) &&& 1) != 0),
        ("mwaitx", e1 && ((re1.ecx >>> 29) &&& 1) != 0),
        ("clzero", e8 && ((re8.ebx >>> 0) &&& 1) != 0),
        ("avx2", hSave && l7 && ((r7.ebx >>> 5) &&& 1) != 0),
        ("fsgsbase", l7 && ((r7.ebx >>> 0) &&& 1) != 0),
        ("sgx", l7 && ((r7.ebx >>> 2) &&& 1) != 0),
        ("bmi", l7 && ((r7.ebx >>> 3) &&& 1) != 0),
        ("bmi2", l7 && ((r7.ebx >>> 8) &&& 1) != 0),
        ("rtm", l7 && ((r7.ebx >>> 11) &&& 1) != 0),
        ("rdseed", l7 && ((r7.ebx >>> 18) &&& 1) != 0),
        ("adx", l7 && ((r7.ebx >>> 19) &&& 1) != 0),
        ("clflushopt", l7 && ((r7.ebx >>> 23) &&& 1) != 0),
        ("clwb", l7 && ((r7.ebx >>> 24) &&& 1) != 0),
        ("sha", l7 && ((r7.ebx >>> 29) &&& 1) != 0),
        ("avx512f", l7 && ((r7.ebx >>> 16) &&& 1) != 0 && h512),
        ("avx512dq", l7 && ((r7.ebx >>> 17) &&& 1) != 0 && h512),
        ("avx512ifma", l7 && ((r7.ebx >>> 21) &&& 1) != 0 && h512),
        ("avx512pf", l7 && ((r7.ebx >>> 26) &&& 1) != 0 && h512),
        ("avx512er", l7 && ((r7.ebx >>> 27) &&& 1) != 0 && h512),
        ("avx512cd", l7 && ((r7.ebx >>> 28) &&& 1) != 0 && h512),
        ("avx512bw", l7 && ((r7.ebx >>> 30) &&& 1) != 0 && h512),
        ("avx512vl", l7 && ((r7.ebx >>> 31) &&& 1) != 0 && h512),
        ("prefetchwt1", l7 && (r7.ecx &&& 1) != 0),
        ("avx512vbmi", l7 && ((r7.ecx >>> 1) &&& 1) != 0 && h512),
        ("avx512vpopcntdq", l7 && ((r7.ecx >>> 14) &&& 1) != 0 && h512),
        ("pku", l7 && ((r7.ecx >>> 4) &&& 1) != 0),
        ("xsaveopt", hSave && lD && ((rD.eax >>> 0) &&& 1) != 0),
        ("xsavec", hSave && lD && ((rD.eax >>> 1) &&& 1) != 0),
        ("xsaves", hSave && lD && ((rD.eax >>> 3) &&& 1) != 0)
      ]

/-- Value of one feature flag in the `getHostCPUFeatures` result. -/
def featureVal (m : Machine) (k : String) : Option Bool :=
  (getHostCPUFeatures m).bind (fun l => l.lookup k)

/-- Machine whose extended leaf 0x80000001 reports the XOP and FMA4
CPUID bits while XGETBV is unavailable, so the AVX gate fails. -/
def xopMachine : Machine where
  cpuidOk := true
  cpuid := fun leaf _ =>
    if leaf = 0 then ⟨1, 0, 0, 0⟩
    else if leaf = 0x80000000 then ⟨0x80000001, 0, 0, 0⟩
    else if leaf = 0x80000001 then ⟨0, 0, (1 <<< 11) ||| (1 <<< 16), 0⟩
    else ⟨0, 0, 0, 0⟩
  xcr0 := none

/-! ### Vendor signatures and processor type/subtype enums
(Host.cpp lines 319-392) -/

def SIG_INTEL : Nat := 0x756e6547
def SIG_AMD : Nat := 0x68747541

def INTEL_BONNELL : Nat := 1
def INTEL_CORE2 : Nat := 2
def INTEL_COREI7 : Nat := 3
def AMDFAM10H : Nat := 4
def AMDFAM15H : Nat := 5
def INTEL_SILVERMONT : Nat := 6
def INTEL_KNL : Nat := 7
def AMD_BTVER1 : Nat := 8
def AMD_BTVER2 : Nat := 9
def AMDFAM17H : Nat := 10
def INTEL_i386 : Nat := 11
def INTEL_i486 : Nat := 12
def INTEL_PENTIUM : Nat := 13
def INTEL_PENTIUM_PRO : Nat := 14
def INTEL_PENTIUM_II : Nat := 15
def INTEL_PENTIUM_III : Nat := 16
def INTEL_PENTIUM_IV : Nat := 17
def INTEL_PENTIUM_M : Nat := 18
def INTEL_CORE_DUO : Nat := 19
def INTEL_X86_64 : Nat := 20
def INTEL_NOCONA : Nat := 21
def INTEL_PRESCOTT : Nat := 22
def AMD_i486 : Nat := 23
def AMDPENTIUM : Nat := 24
def AMDATHLON : Nat := 25
def INTEL_GOLDMONT : Nat := 26

def INTEL_COREI7_NEHALEM : Nat := 1
def INTEL_COREI7_WESTMERE : Nat := 2
def INTEL_COREI7_SANDYBRIDGE : Nat := 3
def AMDFAM10H_BARCELONA : Nat := 4
def AMDFAM10H_SHANGHAI : Nat := 5
def AMDFAM10H_ISTANBUL : Nat := 6
def AMDFAM15H_BDVER1 : Nat := 7
def AMDFAM15H_BDVER2 : Nat := 8
def AMDFAM15H_BDVER3 : Nat := 9
def AMDFAM15H_BDVER4 : Nat := 10
def AMDFAM17H_ZNVER1 : Nat := 11
def INTEL_COREI7_IVYBRIDGE : Nat := 12
def INTEL_COREI7_HASWELL : Nat := 13
def INTEL_COREI7_BROADWELL : Nat := 14
def INTEL_COREI7_SKYLAKE : Nat := 15
def INTEL_COREI7_SKYLAKE_AVX512 : Nat := 16
def INTEL_PENTIUM_MMX : Nat := 17
def INTEL_CORE2_65 : Nat := 18
def INTEL_CORE2_45 : Nat := 19
def AMDPENTIUM_K6 : Nat := 20
def AMDPENTIUM_K62 : Nat := 21
def AMDPENTIUM_K63 : Nat := 22
def AMDPENTIUM_GEODE : Nat := 23
def AMDATHLON_CLASSIC : Nat := 24
def AMDATHLON_XP : Nat := 25
def AMDATHLON_K8 : Nat := 26
def AMDATHLON_K8SSE3 : Nat := 27

/-- Test of `f2 & (1 << (k - 32))`, the idiom the source uses for the
second feature word. -/
def testF2 (f2 k : Nat) : Bool := (f2 &&& (1 <<< (k - 32))) != 0

/-! ### getIntelProcessorTypeAndSubtype (Host.cpp lines 577-880)

The C `switch` on the model becomes an if-chain with one branch per
fall-through case group, in source order.  `*Type`/`*Subtype` are only
assigned on a match, so the result is a pair of `Option Nat` that starts
at `(none, none)`. -/

/-- Embedding of the family-6 `default:` feature cascade (Host.cpp
lines 763-837), first matching predicate wins. -/
def intelFam6Default (Features Features2 : Nat) : Option Nat × Option Nat :=
  if testF Features FEATURE_AVX512F then
    (if testF Features FEATURE_AVX512VL then
       (some INTEL_COREI7, some INTEL_COREI7_SKYLAKE_AVX512)
     else (some INTEL_KNL, none))
  else if testF2 Features2 FEATURE_CLFLUSHOPT then
    (if testF2 Features2 FEATURE_SHA then (some INTEL_GOLDMONT, none)
     else (some INTEL_COREI7, some INTEL_COREI7_SKYLAKE))
  else if testF2 Features2 FEATURE_ADX then (some INTEL_COREI7, some INTEL_COREI7_BROADWELL)
  else if testF Features FEATURE_AVX2 then (some INTEL_COREI7, some INTEL_COREI7_HASWELL)
  else if testF Features FEATURE_AVX then (some INTEL_COREI7, some INTEL_COREI7_SANDYBRIDGE)
  else if testF Features FEATURE_SSE4_2 then
    (if testF2 Features2 FEATURE_MOVBE then (some INTEL_SILVERMONT, none)
     else (some INTEL_COREI7, some INTEL_COREI7_NEHALEM))
  else if testF Features FEATURE_SSE4_1 then (some INTEL_CORE2, some INTEL_CORE2_45)
  else if testF Features FEATURE_SSSE3 then
    (if testF2 Features2 FEATURE_MOVBE then (some INTEL_BONNELL, none)
     else (some INTEL_CORE2, some INTEL_CORE2_65))
  else if testF2 Features2 FEATURE_EM64T then (some INTEL_X86_64, none)
  else if testF Features FEATURE_SSE2 then (some INTEL_PENTIUM_M, none)
  else if testF Features FEATURE_SSE then (some INTEL_PENTIUM_III, none)
  else if testF Features FEATURE_MMX then (some INTEL_PENTIUM_II, none)
  else (some INTEL_PENTIUM_PRO, none)

/-- Embedding of the family-6 model `switch` (Host.cpp lines 626-838),
one branch per case group, in source order; unlisted models fall to the
feature cascade. -/
def intelFamily6 (Model Features Features2 : Nat) : Option Nat × Option Nat :=
  if Model = 0x01 then (some INTEL_PENTIUM_PRO, none)
  else if Model = 0x03 ∨ Model = 0x05 ∨ Model = 0x06 then (some INTEL_PENTIUM_II, none)
  else if Model = 0x07 ∨ Model = 0x08 ∨ Model = 0x0a ∨ Model = 0x0b then
    (some INTEL_PENTIUM_III, none)
  else if Model = 0x09 ∨ Model = 0x0d ∨ Model = 0x15 then (some INTEL_PENTIUM_M, none)
  else if Model = 0x0e then (some INTEL_CORE_DUO, none)
  else if Model = 0x0f ∨ Model = 0x16 then (some INTEL_CORE2, some INTEL_CORE2_65)
  else if Model = 0x17 ∨ Model = 0x1d then (some INTEL_CORE2, some INTEL_CORE2_45)
  else if Model = 0x1a ∨ Model = 0x1e ∨ Model = 0x1f ∨ Model = 0x2e then
    (some INTEL_COREI7, some INTEL_COREI7_NEHALEM)
  else if Model = 0x25 ∨ Model = 0x2c ∨ Model = 0x2f then
    (some INTEL_COREI7, some INTEL_COREI7_WESTMERE)
  else if Model = 0x2a ∨ Model = 0x2d then (some INTEL_COREI7, some INTEL_COREI7_SANDYBRIDGE)
  else if Model = 0x3a ∨ Model = 0x3e then (some INTEL_COREI7, some INTEL_COREI7_IVYBRIDGE)
  else if Model = 0x3c ∨ Model = 0x3f ∨ Model = 0x45 ∨ Model = 0x46 then
    (some INTEL_COREI7, some INTEL_COREI7_HASWELL)
  else if Model = 0x3d ∨ Model = 0x47 ∨ Model = 0x4f ∨ Model = 0x56 then
    (some INTEL_COREI7, some INTEL_COREI7_BROADWELL)
  else if Model = 0x4e ∨ Model = 0x5e ∨ Model = 0x8e ∨ Model = 0x9e then
    (some INTEL_COREI7, some INTEL_COREI7_SKYLAKE)
  else if Model = 0x55 then (some INTEL_COREI7, some INTEL_COREI7_SKYLAKE_AVX512)
  else if Model = 0x1c ∨ Model = 0x26 ∨ Model = 0x27 ∨ Model = 0x35 ∨ Model = 0x36 then
    (some INTEL_BONNELL, none)
  else if Model = 0x37 ∨ Model = 0x4a ∨ Model = 0x4d ∨ Model = 0x5a ∨ Model = 0x5d ∨
      Model = 0x4c then
    (some INTEL_SILVERMONT, none)
  else if Model = 0x5c ∨ Model = 0x5f then (some INTEL_GOLDMONT, none)
  else if Model = 0x57 then (some INTEL_KNL, none)
  else intelFam6Default Features Features2

/-- Membership of a model in the family-6 case table of
`getIntelProcessorTypeAndSubtype` (same groups, same order). -/
def intelFam6Listed (Model : Nat) : Bool :=
  decide (Model = 0x01) ||
  decide (Model = 0x03 ∨ Model = 0x05 ∨ Model = 0x06) ||
  decide (Model = 0x07 ∨ Model = 0x08 ∨ Model = 0x0a ∨ Model = 0x0b) ||
  decide (Model = 0x09 ∨ Model = 0x0d ∨ Model = 0x15) ||
  decide (Model = 0x0e) ||
  decide (Model = 0x0f ∨ Model = 0x16) ||
  decide (Model = 0x17 ∨ Model = 0x1d) ||
  decide (Model = 0x1a ∨ Model = 0x1e ∨ Model = 0x1f ∨ Model = 0x2e) ||
  decide (Model = 0x25 ∨ Model = 0x2c ∨ Model = 0x2f) ||
  decide (Model = 0x2a ∨ Model = 0x2d) ||
  decide (Model = 0x3a ∨ Model = 0x3e) ||
  decide (Model = 0x3c ∨ Model = 0x3f ∨ Model = 0x45 ∨ Model = 0x46) ||
  decide (Model = 0x3d ∨ Model = 0x47 ∨ Model = 0x4f ∨ Model = 0x56) ||
  decide (Model = 0x4e ∨ Model = 0x5e ∨ Model = 0x8e ∨ Model = 0x9e) ||
  decide (Model = 0x55) ||
  decide (Model = 0x1c ∨ Model = 0x26 ∨ Model = 0x27 ∨ Model = 0x35 ∨ Model = 0x36) ||
  decide (Model = 0x37 ∨ Model = 0x4a ∨ Model = 0x4d ∨ Model = 0x5a ∨ Model = 0x5d ∨
    Model = 0x4c) ||
  decide (Model = 0x5c ∨ Model = 0x5f) ||
  decide (Model = 0x57)

/-- Embedding of `getIntelProcessorTypeAndSubtype`: the early `return`
for a nonzero brand id leaves the outputs unassigned, then the family
`switch` (families 3, 4, 5, 6, 15, default). -/
def getIntelProcessorTypeAndSubtype (Family Model Brand_id Features Features2 : Nat) :
    Option Nat × Option Nat :=
  if Brand_id ≠ 0 then (none, none)
  else if Family = 3 then (some INTEL_i386, none)
  else if Family = 4 then (some INTEL_i486, none)
  else if Family = 5 then
    (if Model = 4 then (some INTEL_PENTIUM, some INTEL_PENTIUM_MMX)
     else (some INTEL_PENTIUM, none))
  else if Family = 6 then intelFamily6 Model Features Features2
  else if Family = 15 then
    (if Model = 0 ∨ Model = 1 ∨ Model = 2 then
       (some (if testF2 Features2 FEATURE_EM64T then INTEL_X86_64 else INTEL_PENTIUM_IV), none)
     else if Model = 3 ∨ Model = 4 ∨ Model = 6 then
       (some (if testF2 Features2 FEATURE_EM64T then INTEL_NOCONA else INTEL_PRESCOTT), none)
     else
       (some (if testF2 Features2 FEATURE_EM64T then INTEL_X86_64 else INTEL_PENTIUM_IV), none))
  else (none, none)

/-- Embedding of `getAMDProcessorTypeAndSubtype` (Host.cpp lines
882-973). -/
def getAMDProcessorTypeAndSubtype (Family Model Features : Nat) : Option Nat × Option Nat :=
  if Family = 4 then (some AMD_i486, none)
  else if Family = 5 then
    (some AMDPENTIUM,
     if Model = 6 ∨ Model = 7 then some AMDPENTIUM_K6
     else if Model = 8 then some AMDPENTIUM_K62
     else if Model = 9 ∨ Model = 13 then some AMDPENTIUM_K63
     else if Model = 10 then some AMDPENTIUM_GEODE
     else none)
  else if Family = 6 then
    (some AMDATHLON,
     if testF Features FEATURE_SSE then some AMDATHLON_XP else some AMDATHLON_CLASSIC)
  else if Family = 15 then
    (some AMDATHLON,
     if testF Features FEATURE_SSE3 then some AMDATHLON_K8SSE3 else some AMDATHLON_K8)
  else if Family = 16 then
    (some AMDFAM10H,
     if Model = 2 then some AMDFAM10H_BARCELONA
     else if Model = 4 then some AMDFAM10H_SHANGHAI
     else if Model = 8 then some AMDFAM10H_ISTANBUL
     else none)
  else if Family = 20 then (some AMD_BTVER1, none)
  else if Family = 21 then
    (some AMDFAM15H,
     if 0x60 ≤ Model ∧ Model ≤ 0x7f then some AMDFAM15H_BDVER4
     else if 0x30 ≤ Model ∧ Model ≤ 0x3f then some AMDFAM15H_BDVER3
     else if 0x10 ≤ Model ∧ Model ≤ 0x1f then some AMDFAM15H_BDVER2
     else if Model ≤ 0x0f then some AMDFAM15H_BDVER1
     else none)
  else if Family = 22 then (some AMD_BTVER2, none)
  else if Family = 23 then (some AMDFAM17H, some AMDFAM17H_ZNVER1)
  else (none, none)

/-! ### getHostCPUName, x86 variant (Host.cpp lines 1083-1235) -/

/-- Embedding of the Intel `switch (Type)` of `getHostCPUName`:
`llvm_unreachable` becomes `Except.error ()`, the default and an unset
type fall through to `"generic"`. -/
def intelNameForTS (ts : Option Nat × Option Nat) : Except Unit String :=
  let t := ts.1
  let s := ts.2
  if t = some INTEL_i386 then .ok "i386"
  else if t = some INTEL_i486 then .ok "i486"
  else if t = some INTEL_PENTIUM then
    (if s = some INTEL_PENTIUM_MMX then .ok "pentium-mmx" else .ok "pentium")
  else if t = some INTEL_PENTIUM_PRO then .ok "pentiumpro"
  else if t = some INTEL_PENTIUM_II then .ok "pentium2"
  else if t = some INTEL_PENTIUM_III then .ok "pentium3"
  else if t = some INTEL_PENTIUM_IV then .ok "pentium4"
  else if t = some INTEL_PENTIUM_M then .ok "pentium-m"
  else if t = some INTEL_CORE_DUO then .ok "yonah"
  else if t = some INTEL_CORE2 then
    (if s = some INTEL_CORE2_65 then .ok "core2"
     else if s = some INTEL_CORE2_45 then .ok "penryn"
     else .error ())
  else if t = some INTEL_COREI7 then
    (if s = some INTEL_COREI7_NEHALEM then .ok "nehalem"
     else if s = some INTEL_COREI7_WESTMERE then .ok "westmere"
     else if s = some INTEL_COREI7_SANDYBRIDGE then .ok "sandybridge"
     else if s = some INTEL_COREI7_IVYBRIDGE then .ok "ivybridge"
     else if s = some INTEL_COREI7_HASWELL then .ok "haswell"
     else if s = some INTEL_COREI7_BROADWELL then .ok "broadwell"
     else if s = some INTEL_COREI7_SKYLAKE then .ok "skylake"
     else if s = some INTEL_COREI7_SKYLAKE_AVX512 then .ok "skylake-avx512"
     else .error ())
  else if t = some INTEL_BONNELL then .ok "bonnell"
  else if t = some INTEL_SILVERMONT then .ok "silvermont"
  else if t = some INTEL_GOLDMONT then .ok "goldmont"
  else if t = some INTEL_KNL then .ok "knl"
  else if t = some INTEL_X86_64 then .ok "x86-64"
  else if t = some INTEL_NOCONA then .ok "nocona"
  else if t = some INTEL_PRESCOTT then .ok "prescott"
  else .ok "generic"

/-- Embedding of the AMD `switch (Type)` of `getHostCPUName` (note the
`default: case AMDFAM15H_BDVER1:` group returning "bdver1"). -/
def amdNameForTS (ts : Option Nat × Option Nat) : Except Unit String :=
  let t := ts.1
  let s := ts.2
  if t = some AMD_i486 then .ok "i486"
  else if t = some AMDPENTIUM then
    (if s = some AMDPENTIUM_K6 then .ok "k6"
     else if s = some AMDPENTIUM_K62 then .ok "k6-2"
     else if s = some AMDPENTIUM_K63 then .ok "k6-3"
     else if s = some AMDPENTIUM_GEODE then .ok "geode"
     else .ok "pentium")
  else if t = some AMDATHLON then
    (if s = some AMDATHLON_CLASSIC then .ok "athlon"
     else if s = some AMDATHLON_XP then .ok "athlon-xp"
     else if s = some AMDATHLON_K8 then .ok "k8"
     else if s = some AMDATHLON_K8SSE3 then .ok "k8-sse3"
     else .error ())
  else if t = some AMDFAM10H then .ok "amdfam10"
  else if t = some AMD_BTVER1 then .ok "btver1"
  else if t = some AMDFAM15H then
    (if s = some AMDFAM15H_BDVER2 then .ok "bdver2"
     else if s = some AMDFAM15H_BDVER3 then .ok "bdver3"
     else if s = some AMDFAM15H_BDVER4 then .ok "bdver4"
     else .ok "bdver1")
  else if t = some AMD_BTVER2 then .ok "btver2"
  else if t = some AMDFAM17H then .ok "znver1"
  else .ok "generic"

/-- Embedding of the x86 `sys::getHostCPUName`. -/
def getHostCPUName (m : Machine) : Except Unit String :=
  if !m.cpuidOk then .ok "generic"
  else
    let MaxLeaf := (m.cpuid 0 0).eax
    let Vendor := (m.cpuid 0 0).ebx
    if MaxLeaf < 1 then .ok "generic"
    else
      let r1 := m.cpuid 1 0
      let Brand_id := r1.ebx &&& 0xff
      let fm := detectX86FamilyModel r1.eax
      let fs := getAvailableFeatures r1.ecx r1.edx MaxLeaf m
      if Vendor = SIG_INTEL then
        intelNameForTS (getIntelProcessorTypeAndSubtype fm.1 fm.2 Brand_id fs.1 fs.2)
      else if Vendor = SIG_AMD then
        amdNameForTS (getAMDProcessorTypeAndSubtype fm.1 fm.2 fs.1)
      else .ok "generic"

/-- Expression of the family-6 feature cascade written from the spec's
claim, as a first-match-wins priority list over canonical names, to be
compared against the embedded code. -/
def intelFam6HeuristicName (Features Features2 : Nat) : String :=
  if testF Features FEATURE_AVX512F then
    (if testF Features FEATURE_AVX512VL then "skylake-avx512" else "knl")
  else if testF2 Features2 FEATURE_CLFLUSHOPT then
    (if testF2 Features2 FEATURE_SHA then "goldmont" else "skylake")
  else if testF2 Features2 FEATURE_ADX then "broadwell"
  else if testF Features FEATURE_AVX2 then "haswell"
  else if testF Features FEATURE_AVX then "sandybridge"
  else if testF Features FEATURE_SSE4_2 then
    (if testF2 Features2 FEATURE_MOVBE then "silvermont" else "nehalem")
  else if testF Features FEATURE_SSE4_1 then "penryn"
  else if testF Features FEATURE_SSSE3 then
    (if testF2 Features2 FEATURE_MOVBE then "bonnell" else "core2")
  else if testF2 Features2 FEATURE_EM64T then "x86-64"
  else if testF Features FEATURE_SSE2 then "pentium-m"
  else if testF Features FEATURE_SSE then "pentium3"
  else if testF Features FEATURE_MMX then "pentium2"
  else "pentiumpro"

/-- Machine reporting the Intel vendor signature and a nonzero leaf-1
brand id byte. -/
def brandMachine : Machine where
  cpuidOk := true
  cpuid := fun leaf _ =>
    if leaf = 0 then ⟨1, SIG_INTEL, 0, 0⟩
    else if leaf = 1 then ⟨0, 1, 0, 0⟩
    else ⟨0, 0, 0, 0⟩
  xcr0 := none

/-! ### Text utilities over `List Char`

`/proc/cpuinfo` text and `StringRef` operations are modelled over
`List Char` with structural recursion, so that every definition
evaluates inside the kernel. -/

/-- Character set trimmed by `StringRef::trim()` (" \t\n\v\f\r"). -/
def isTrimChar (c : Char) : Bool :=
  c == ' ' || c == '\t' || c == '\n' || c == Char.ofNat 11 || c == Char.ofNat 12 || c == '\r'

/-- Model of `StringRef::trim()`: drop trim characters from both ends. -/
def llvmTrim (l : List Char) : List Char :=
  ((l.dropWhile isTrimChar).reverse.dropWhile isTrimChar).reverse

/-- Model of `StringRef::startswith`. -/
def startsWithL : List Char → List Char → Bool
  | _, [] => true
  | [], _ :: _ => false
  | c :: cs, p :: ps => c == p && startsWithL cs ps

/-- Model of `StringRef::endswith`. -/
def endsWithL (l p : List Char) : Bool := startsWithL l.reverse p.reverse

/-- Model of `StringRef::split(SmallVector, "\n")` with the default
`KeepEmpty = true`. -/
def splitNl : List Char → List (List Char)
  | [] => [[]]
  | c :: rest =>
    if c == '\n' then [] :: splitNl rest
    else
      match splitNl rest with
      | [] => [[c]]
      | l :: ls => (c :: l) :: ls

/-- Model of `StringRef::split(char)`: the pieces before and after the
first occurrence of the separator (the whole string and "" if absent). -/
def splitFirstChar (sep : Char) : List Char → List Char × List Char
  | [] => ([], [])
  | c :: rest =>
    if c == sep then ([], rest)
    else
      let p := splitFirstChar sep rest
      (c :: p.1, p.2)

/-- Decimal digit value accepted by `StringRef::getAsInteger(10, _)`. -/
def digitVal (c : Char) : Option Nat :=
  if '0' ≤ c ∧ c ≤ '9' then some (c.toNat - '0'.toNat) else none

/-- Accumulating decimal parse; fails on any non-digit. -/
def parseDigits : List Char → Nat → Option Nat
  | [], acc => some acc
  | c :: rest, acc =>
    match digitVal c with
    | some d => parseDigits rest (acc * 10 + d)
    | none => none

/-- Model of `getAsUnsignedInteger` at radix 10: empty or any non-digit
fails. -/
def parseUnsignedLLVM : List Char → Option Nat
  | [] => none
  | l => parseDigits l 0

/-- Model of `StringRef::getAsInteger(10, unsigned &)`: decimal parse
plus the fits-in-32-bits check. -/
def parseUInt32 (l : List Char) : Option Nat :=
  match parseUnsignedLLVM l with
  | some v => if v < 2 ^ 32 then some v else none
  | none => none

/-- Model of `StringRef::getAsInteger(10, int &)`: an optional leading
minus, decimal digits, and the fits-in-`int` check. -/
def parseIntLLVM : List Char → Option Int
  | [] => none
  | c :: rest =>
    if c = '-' then
      (match parseUnsignedLLVM rest with
       | some v => if v ≤ 2 ^ 31 then some (-(v : Int)) else none
       | none => none)
    else
      (match parseUnsignedLLVM (c :: rest) with
       | some v => if v < 2 ^ 31 then some (v : Int) else none
       | none => none)

/-! ### computeHostNumPhysicalCores, Linux/x86-64 variant
(Host.cpp lines 1305-1345) -/

/-- `SmallSet::insert` on the list of pairs seen so far (insertion order
is irrelevant; only the size is consumed). -/
def insertPair (p : Int × Int) (items : List (Int × Int)) : List (Int × Int) :=
  if p ∈ items then items else items ++ [p]

/-- Scanner state: the `CurPhysicalId`/`CurCoreId` holders (-1 =
unseen, as in the source) and the set of recorded pairs. -/
structure CoreScanState where
  curPhys : Int
  curCore : Int
  items : List (Int × Int)

/-- One iteration of the line loop of `computeHostNumPhysicalCores`:
trim the line, ignore lines not starting "physical id"/"core id", split
at the first ':', update the holder whose exact name matches (a failed
parse leaves the holder unchanged, as `getAsInteger` does), and record
and reset once both holders are set. -/
def coreScanLine (st : CoreScanState) (line0 : List Char) : CoreScanState :=
  let line := llvmTrim line0
  if !(startsWithL line ("physical id".data)) && !(startsWithL line ("core id".data)) then st
  else
    let data := splitFirstChar ':' line
    let name := llvmTrim data.1
    let val := llvmTrim data.2
    let cp := if name = "physical id".data then
        (match parseIntLLVM val with | some v => v | none => st.curPhys)
      else st.curPhys
    let cc := if name = "core id".data then
        (match parseIntLLVM val with | some v => v | none => st.curCore)
      else st.curCore
    if cp ≠ -1 ∧ cc ≠ -1 then
      { curPhys := -1, curCore := -1, items := insertPair (cp, cc) st.items }
    else
      { curPhys := cp, curCore := cc, items := st.items }

/-- The set of distinct pairs recorded while scanning the buffer
(split on newlines with `KeepEmpty = false`, as the source does). -/
def physicalCoresItems (content : List Char) : List (Int × Int) :=
  (((splitNl content).filter (fun l => l ≠ [])).foldl coreScanLine
    ⟨-1, -1, []⟩).items

/-- Size of the pair set for a successfully read buffer. -/
def computeHostNumPhysicalCoresFromContent (content : List Char) : Int :=
  ((physicalCoresItems content).length : Int)

/-- Embedding of `computeHostNumPhysicalCores`: `none` models a failed
read of `/proc/cpuinfo` (the `return -1` path). -/
def computeHostNumPhysicalCores (content : Option (List Char)) : Int :=
  match content with
  | none => -1
  | some s => computeHostNumPhysicalCoresFromContent s

/-! ### Claim-side and amended-spec scanners for the core counter -/

/-- Holder state written from the claim's words: a holder is `some v`
once its line has been seen, with no sentinel value. -/
structure SpecCoreState where
  phys : Option Int
  core : Option Int
  items : List (Int × Int)

/-- Scanner step written from the claim as stated: parse the integer
after the colon, record the pair once both holders have been seen (in
either order), then reset both. -/
def claimCoreScanLine (st : SpecCoreState) (line0 : List Char) : SpecCoreState :=
  let line := llvmTrim line0
  if !(startsWithL line ("physical id".data)) && !(startsWithL line ("core id".data)) then st
  else
    let data := splitFirstChar ':' line
    let name := llvmTrim data.1
    let val := llvmTrim data.2
    let ph := if name = "physical id".data then
        (match parseIntLLVM val with | some v => some v | none => st.phys)
      else st.phys
    let co := if name = "core id".data then
        (match parseIntLLVM val with | some v => some v | none => st.core)
      else st.core
    if ph.isSome && co.isSome then ⟨none, none, insertPair (ph.getD 0, co.getD 0) st.items⟩
    else ⟨ph, co, st.items⟩

/-- Pair count under the claim's reading ("seen" with no sentinel). -/
def claimPhysicalCoreCount (content : List Char) : Int :=
  (((((splitNl content).filter (fun l => l ≠ [])).foldl claimCoreScanLine
    ⟨none, none, []⟩).items).length : Int)

/-- Encoding of the source's sentinel: a holder equal to -1 counts as
unseen. -/
def specStore (v : Int) : Option Int := if v = -1 then none else some v

/-- Scanner step of the amended claim: as the claim states it, except
that a parsed value of -1 leaves the holder in the "unseen" state (the
source's sentinel). -/
def specCoreScanLine (st : SpecCoreState) (line0 : List Char) : SpecCoreState :=
  let line := llvmTrim line0
  if !(startsWithL line ("physical id".data)) && !(startsWithL line ("core id".data)) then st
  else
    let data := splitFirstChar ':' line
    let name := llvmTrim data.1
    let val := llvmTrim data.2
    let ph := if name = "physical id".data then
        (match parseIntLLVM val with | some v => specStore v | none => st.phys)
      else st.phys
    let co := if name = "core id".data then
        (match parseIntLLVM val with | some v => specStore v | none => st.core)
      else st.core
    if ph.isSome && co.isSome then ⟨none, none, insertPair (ph.getD 0, co.getD 0) st.items⟩
    else ⟨ph, co, st.items⟩

/-- Pair count under the amended claim. -/
def specPhysicalCoreCount (content : List Char) : Int :=
  (((((splitNl content).filter (fun l => l ≠ [])).foldl specCoreScanLine
    ⟨none, none, []⟩).items).length : Int)

/-- A "physical id" line followed by a value token. -/
def physLineL (v : List Char) : List Char := ("physical id".data) ++ ':' :: ' ' :: v

/-- A "core id" line followed by a value token. -/
def coreLineL (v : List Char) : List Char := ("core id".data) ++ ':' :: ' ' :: v

/-- Four processor blocks holding two (physical id, core id) pairs, each
pair repeated twice, with strictly alternating id lines. -/
def fourBlockInput (a b c d : List Char) : List Char :=
  physLineL a ++ '\n' :: (coreLineL b ++ '\n' :: (physLineL c ++ '\n' :: (coreLineL d ++
    '\n' :: (physLineL a ++ '\n' :: (coreLineL b ++ '\n' :: (physLineL c ++
    '\n' :: coreLineL d))))))

/-- Counterexample input for the sentinel behaviour: a parsed physical
id of -1. -/
def sentinelCoresInput : List Char := ("physical id : -1\ncore id : 0\n".data)

/-! ### getHostCPUNameForS390x (Host.cpp lines 221-273) -/

/-- Model of `StringRef::split(SmallVector, char)` with default
`KeepEmpty = true`. -/
def splitChar (sep : Char) : List Char → List (List Char)
  | [] => [[]]
  | c :: rest =>
    if c == sep then [] :: splitChar sep rest
    else
      match splitChar sep rest with
      | [] => [[c]]
      | l :: ls => (c :: l) :: ls

/-- Model of `StringRef::find(StringRef)` followed by dropping through
the pattern: the suffix after the first occurrence of `pat`. -/
def findSubAfter (pat : List Char) : List Char → Option (List Char)
  | [] => if pat = [] then some [] else none
  | c :: rest =>
    if startsWithL (c :: rest) pat then some ((c :: rest).drop pat.length)
    else findSubAfter pat rest

/-- Embedding of the features scan (Host.cpp lines 231-239): tokens of
the first line that starts with "features" and contains a colon (a
colon-less features line does not `break`, so the scan continues). -/
def s390FeatureTokens : List (List Char) → List (List Char)
  | [] => []
  | l :: rest =>
    if startsWithL l ("features".data) then
      (if l.contains ':' then splitChar ' ' ((splitFirstChar ':' l).2)
       else s390FeatureTokens rest)
    else s390FeatureTokens rest

/-- Embedding of the processor scan (Host.cpp lines 251-270): only the
first line starting "processor " is inspected (`break` follows it
unconditionally); the id parses only if that line contains
"machine = ". -/
def s390MachineId : List (List Char) → Option Nat
  | [] => none
  | l :: rest =>
    if startsWithL l ("processor ".data) then
      (match findSubAfter ("machine = ".data) l with
       | some tail => parseUInt32 tail
       | none => none)
    else s390MachineId rest

/-- The descending machine-id threshold map of the source. -/
def s390Thresholds (vx : Bool) (idOpt : Option Nat) : String :=
  match idOpt with
  | some id =>
    if 3906 ≤ id ∧ vx = true then "z14"
    else if 2964 ≤ id ∧ vx = true then "z13"
    else if 2827 ≤ id then "zEC12"
    else if 2817 ≤ id then "z196"
    else "generic"
  | none => "generic"

/-- Embedding of `getHostCPUNameForS390x`. -/
def getHostCPUNameForS390x (content : List Char) : String :=
  let lines := splitNl content
  s390Thresholds ((s390FeatureTokens lines).contains ("vx".data)) (s390MachineId lines)

/-- Vector support as the claim states it: the token "vx" in the first
line starting "features" (with no colon requirement; a colon-less line
simply has no tokens after a colon). -/
def s390ClaimVx (lines : List (List Char)) : Bool :=
  match lines.find? (fun l => startsWithL l ("features".data)) with
  | some l => (splitChar ' ' ((splitFirstChar ':' l).2)).contains ("vx".data)
  | none => false

/-- Machine id as the claim states it: parsed from the first line that
starts "processor " and contains "machine = ". -/
def s390ClaimMachineId (lines : List (List Char)) : Option Nat :=
  match lines.find? (fun l => startsWithL l ("processor ".data) &&
      (findSubAfter ("machine = ".data) l).isSome) with
  | some l =>
    (match findSubAfter ("machine = ".data) l with
     | some tail => parseUInt32 tail
     | none => none)
  | none => none

/-- The S390x name as the claim, read literally, predicts it. -/
def s390ClaimName (content : List Char) : String :=
  s390Thresholds (s390ClaimVx (splitNl content)) (s390ClaimMachineId (splitNl content))

/-- Amended reading of the features rule: the first "features" line that
contains a colon. -/
def s390AmendedVx (lines : List (List Char)) : Bool :=
  match lines.find? (fun l => startsWithL l ("features".data) && l.contains ':') with
  | some l => (splitChar ' ' ((splitFirstChar ':' l).2)).contains ("vx".data)
  | none => false

/-- Amended reading of the machine-id rule: the first line starting
"processor ", and only if that line contains "machine = ". -/
def s390AmendedMachineId (lines : List (List Char)) : Option Nat :=
  match lines.find? (fun l => startsWithL l ("processor ".data)) with
  | some l =>
    (match findSubAfter ("machine = ".data) l with
     | some tail => parseUInt32 tail
     | none => none)
  | none => none

/-- Input on which the claim's literal reading diverges from the code:
the first "features" line has no colon, and the first "processor " line
has no "machine = " field. -/
def s390CexInput : List Char :=
  ("features\nfeatures : esan3 zarch vx\nprocessor 0\nprocessor 1: machine = 2964\n".data)

/-- Sample inputs for the three threshold instances quoted by the claim. -/
def s390Input2827 : List Char :=
  ("features : esan3 zarch stfle\nprocessor 0: version = FF, machine = 2827".data)

def s390Input2964vx : List Char :=
  ("features : esan3 zarch stfle vx\nprocessor 0: version = FF, machine = 2964".data)

def s390Input2964 : List Char :=
  ("features : esan3 zarch stfle\nprocessor 0: version = FF, machine = 2964".data)

/-! ### getHostCPUNameForARM (Host.cpp lines 147-219) -/

/-- Model of `StringRef::ltrim("\t :")`. -/
def ltrimTabSpColon (l : List Char) : List Char :=
  l.dropWhile (fun c => c == '\t' || c == ' ' || c == ':')

/-- Embedding of the implementer/hardware scan (Host.cpp lines
158-165): a single pass over all lines in which a later matching line
overwrites an earlier one. -/
def armImplHw (lines : List (List Char)) : List Char × List Char :=
  lines.foldl (fun acc l =>
    ((if startsWithL l ("CPU implementer".data) then ltrimTabSpColon (l.drop 15)
      else acc.1),
     (if startsWithL l ("Hardware".data) then ltrimTabSpColon (l.drop 8) else acc.2)))
    ([], [])

/-- The first "CPU part" line's trimmed token (the part loops `return`
on the first matching line). -/
def armFirstPart : List (List Char) → Option (List Char)
  | [] => none
  | l :: rest =>
    if startsWithL l ("CPU part".data) then some (ltrimTabSpColon (l.drop 8))
    else armFirstPart rest

/-- ARM Ltd. part table (StringSwitch, Host.cpp lines 180-197). -/
def armPartTable (tok : List Char) : String :=
  if tok = "0x926".data then "arm926ej-s"
  else if tok = "0xb02".data then "mpcore"
  else if tok = "0xb36".data then "arm1136j-s"
  else if tok = "0xb56".data then "arm1156t2-s"
  else if tok = "0xb76".data then "arm1176jz-s"
  else if tok = "0xc08".data then "cortex-a8"
  else if tok = "0xc09".data then "cortex-a9"
  else if tok = "0xc0f".data then "cortex-a15"
  else if tok = "0xc20".data then "cortex-m0"
  else if tok = "0xc23".data then "cortex-m3"
  else if tok = "0xc24".data then "cortex-m4"
  else if tok = "0xd04".data then "cortex-a35"
  else if tok = "0xd03".data then "cortex-a53"
  else if tok = "0xd07".data then "cortex-a57"
  else if tok = "0xd08".data then "cortex-a72"
  else if tok = "0xd09".data then "cortex-a73"
  else "generic"

/-- Qualcomm part table (StringSwitch, Host.cpp lines 207-216). -/
def qualcommPartTable (tok : List Char) : String :=
  if tok = "0x06f".data then "krait"
  else if tok = "0x201".data then "kryo"
  else if tok = "0x205".data then "kryo"
  else if tok = "0x211".data then "kryo"
  else if tok = "0x800".data then "cortex-a73"
  else if tok = "0x801".data then "cortex-a73"
  else if tok = "0xc00".data then "falkor"
  else if tok = "0xc01".data then "saphira"
  else "generic"

/-- Embedding of `getHostCPUNameForARM`: the MSM8994/MSM8996 hardware
override short-circuits the ARM Ltd. branch; a missing "CPU part" line
falls through to "generic" for either vendor. -/
def getHostCPUNameForARM (content : List Char) : String :=
  let lines := splitNl content
  let ih := armImplHw lines
  if ih.1 = "0x41".data then
    (if endsWithL ih.2 ("MSM8994".data) || endsWithL ih.2 ("MSM8996".data) then "cortex-a53"
     else
       match armFirstPart lines with
       | some tok => armPartTable tok
       | none => "generic")
  else if ih.1 = "0x51".data then
    (match armFirstPart lines with
     | some tok => qualcommPartTable tok
     | none => "generic")
  else "generic"

/-- Input with the ARM implementer, a Cortex-A57 part id, and a
Hardware string ending in MSM8996 (the override case). -/
def armMsmInput : List Char :=
  ("CPU implementer\t: 0x41\nCPU part\t: 0xd07\nHardware\t: Qualcomm Technologies, Inc MSM8996".data)

/-- Input with two "CPU implementer" lines and two "CPU part" lines:
the last implementer (0x41) and the first part (0xd03) decide. -/
def armMultiLineInput : List Char :=
  ("CPU implementer\t: 0x51\nCPU implementer\t: 0x41\nCPU part\t: 0xd03\nCPU part\t: 0xc08".data)

/-! ### getHostCPUNameForPowerPC (Host.cpp lines 67-145)

The C function scans the buffer byte by byte with a cursor: at each
line start it tries to match `cpu`, optional spaces/tabs, a colon, more
optional spaces/tabs, and then (only if the cursor is still inside the
buffer) takes a token up to the next space, tab, comma, or newline; on
failure it skips to the next newline.  `matchCpuAt` is one match
attempt on a buffer suffix, `scanPPCAux` the loop (fuelled by the
buffer length: every iteration consumes at least one character). -/

/-- Space or tab, the character set of the inner skipping loops. -/
def isSpTab (c : Char) : Bool := c == ' ' || c == '\t'

/-- Token-terminating characters (Host.cpp lines 106-107). -/
def isTokStop (c : Char) : Bool := c == ' ' || c == '\t' || c == ',' || c == '\n'

/-- One match attempt of the byte scanner at the current cursor
position; `none` also covers the cursor reaching the end of the buffer
right after the colon and spaces (then `CPUStart` stays null). -/
def matchCpuAt (s : List Char) : Option (List Char) :=
  match s with
  | c1 :: s1 =>
    if c1 == 'c' then
      match s1 with
      | c2 :: s2 =>
        if c2 == 'p' then
          match s2 with
          | c3 :: s3 =>
            if c3 == 'u' then
              match s3.dropWhile isSpTab with
              | c4 :: s4 =>
                if c4 == ':' then
                  match s4.dropWhile isSpTab with
                  | [] => none
                  | r3 => some (r3.takeWhile (fun c => !(isTokStop c)))
                else none
              | [] => none
            else none
          | [] => none
        else none
      | [] => none
    else none
  | [] => none

/-- The outer while loop: try a match at the current line start, else
skip to just past the next newline.  Fuelled; every iteration consumes
at least one character, so `length + 1` fuel always suffices. -/
def scanPPCAux : Nat → List Char → Option (List Char)
  | 0, _ => none
  | n + 1, s =>
    match matchCpuAt s with
    | some t => some t
    | none =>
      match s.dropWhile (fun c => !(c == '\n')) with
      | [] => none
      | _ :: r => scanPPCAux n r

/-- The PowerPC cpu-type StringSwitch (Host.cpp lines 124-144). -/
def ppcTable (tok : List Char) : String :=
  if tok = "604e".data then "604e"
  else if tok = "604".data then "604"
  else if tok = "7400".data then "7400"
  else if tok = "7410".data then "7400"
  else if tok = "7447".data then "7400"
  else if tok = "7455".data then "7450"
  else if tok = "G4".data then "g4"
  else if tok = "POWER4".data then "970"
  else if tok = "PPC970FX".data then "970"
  else if tok = "PPC970MP".data then "970"
  else if tok = "G5".data then "g5"
  else if tok = "POWER5".data then "g5"
  else if tok = "A2".data then "a2"
  else if tok = "POWER6".data then "pwr6"
  else if tok = "POWER7".data then "pwr7"
  else if tok = "POWER8".data then "pwr8"
  else if tok = "POWER8E".data then "pwr8"
  else if tok = "POWER8NVL".data then "pwr8"
  else if tok = "POWER9".data then "pwr9"
  else "generic"

/-- Name for an optional extracted token ("generic" when the scan found
no cpu line; an empty token also maps to "generic" via the table
default). -/
def ppcNameOf : Option (List Char) → String
  | some tok => ppcTable tok
  | none => "generic"

/-- Embedding of `getHostCPUNameForPowerPC`. -/
def getHostCPUNameForPowerPC (content : List Char) : String :=
  ppcNameOf (scanPPCAux (content.length + 1) content)

/-- Line-level matcher written from the claim's words: a line whose
trimmed prefix is exactly `cpu` followed (after optional spaces/tabs)
by a colon yields the token after the colon up to the next space, tab,
comma, or newline (possibly empty). -/
def matchCpuLine (l : List Char) : Option (List Char) :=
  match l with
  | c1 :: s1 =>
    if c1 == 'c' then
      match s1 with
      | c2 :: s2 =>
        if c2 == 'p' then
          match s2 with
          | c3 :: s3 =>
            if c3 == 'u' then
              match s3.dropWhile isSpTab with
              | c4 :: s4 =>
                if c4 == ':' then
                  some ((s4.dropWhile isSpTab).takeWhile (fun c => !(isTokStop c)))
                else none
              | [] => none
            else none
          | [] => none
        else none
      | [] => none
    else none
  | [] => none

/-- The PowerPC name as the claim describes it: split into lines, map
the first matching line's token through the table, else "generic". -/
def ppcLineSpecName (content : List Char) : String :=
  ppcNameOf ((splitNl content).findSome? matchCpuLine)

/-- Sample POWER9 cpuinfo fragment. -/
def ppcInput9 : List Char :=
  ("processor\t: 0\ncpu\t\t: POWER9 (raw), altivec supported\nclock\t\t: 2300.000000MHz".data)

/-- Sample POWER8E cpuinfo fragment. -/
def ppcInput8E : List Char :=
  ("processor\t: 0\ncpu\t\t: POWER8E (raw), altivec supported\nclock\t\t: 3425.000000MHz".data)

/-! ## Theorems -/

theorem testF_eq_testBit (f k : Nat) : testF f k = f.testBit k := by
  unfold testF
  rw [Nat.one_shiftLeft, Nat.and_two_pow]
  cases h : f.testBit k <;> simp [h]

theorem testF_lor (a b k : Nat) : testF (a ||| b) k = (testF a k || testF b k) := by
  simp [testF_eq_testBit, Nat.testBit_lor]

theorem testF_bitIf (c : Bool) (j k : Nat) : testF (bitIf c j) k = (c && decide (j = k)) := by
  unfold bitIf
  cases c with
  | false => simp [testF, Nat.zero_and]
  | true =>
    simp only [if_pos]
    rw [testF_eq_testBit, Nat.one_shiftLeft, Nat.testBit_two_pow]
    simp

/-- C1, counterexample: the claim states that EAX = 0x000906EA decodes to
family 6 and model 0x9A, but `detectX86FamilyModel` yields model 0x9E
(base model = bits 4-7 = 0xE, extended model = bits 16-19 = 0x9, so the
model is 0x9E; 0xA is the stepping in bits 0-3). -/
theorem detectX86FamilyModel_0x906EA_cex :
    detectX86FamilyModel 0x000906EA = (6, 0x9e) ∧ (0x9e : Nat) ≠ 0x9a := by
  constructor
  · decide
  · decide

/-- C1, amended: for every EAX, `detectX86FamilyModel` extracts the base
family from bits 8-11 and the base model from bits 4-7, adds the
extended-family field (bits 20-27) only when the base family is 0xF, and
folds in the extended-model field (bits 16-19 shifted left 4) exactly
when the base family is 6 or 0xF; in particular EAX = 0x000906EA decodes
to family 6, model 0x9E. -/
theorem detectX86FamilyModel_rule :
    (∀ EAX : Nat,
      detectX86FamilyModel EAX =
        (((EAX >>> 8) &&& 0xf) +
           (if (EAX >>> 8) &&& 0xf = 0xf then (EAX >>> 20) &&& 0xff else 0),
         ((EAX >>> 4) &&& 0xf) +
           (if (EAX >>> 8) &&& 0xf = 6 ∨ (EAX >>> 8) &&& 0xf = 0xf
            then ((EAX >>> 16) &&& 0xf) <<< 4 else 0))) ∧
    detectX86FamilyModel 0x000906EA = (6, 0x9e) := by
  constructor
  · intro EAX
    unfold detectX86FamilyModel
    by_cases h6 : (EAX >>> 8) &&& 0xf = 6 <;>
      by_cases hf : (EAX >>> 8) &&& 0xf = 0xf <;>
        simp [h6, hf]
  · decide

/-- C2, counterexample: on a machine whose CPUID extended leaf 0x80000001
sets the XOP (ECX bit 11) and FMA4 (ECX bit 16) bits while the XGETBV
query is unavailable (so the AVX gate fails), `getAvailableFeatures`
still reports FEATURE_XOP and FEATURE_FMA4 — they are not conjoined with
the AVX gate there, contradicting the claim. -/
theorem getAvailableFeatures_xop_fma4_ungated_cex :
    testF (getAvailableFeatures 0 0 1 xopMachine).1 FEATURE_XOP = true ∧
    testF (getAvailableFeatures 0 0 1 xopMachine).1 FEATURE_FMA4 = true ∧
    hasAVX 0 xopMachine = false := by
  refine ⟨by decide, by decide, by decide⟩

/-- C2, amended: AVX is reported true exactly when leaf-1 ECX has the
OS-save bits 27 and 28 set, XGETBV succeeds, and XCR0 has bits 1 and 2
set; every AVX2 and AVX512 flag is conjoined with that gate (AVX512 also
with XCR0 bits 5-7) in both `getAvailableFeatures` and
`getHostCPUFeatures`, and FMA4/XOP are so gated in `getHostCPUFeatures`;
but in `getAvailableFeatures` the FMA4 and XOP flags depend only on the
extended-leaf CPUID bit and are not conjoined with the AVX gate. -/
theorem avx_gating_amended :
    (∀ (ECX EDX MaxLeaf : Nat) (m : Machine),
      let F := (getAvailableFeatures ECX EDX MaxLeaf m).1
      let l7 := hasLeaf7 MaxLeaf m
      let r7 := m.cpuid 0x7 0
      let e1 := hasExtLeaf1 m
      let re1 := m.cpuid 0x80000001 0
      testF F FEATURE_AVX = hasAVX ECX m ∧
      testF F FEATURE_AVX2 = (l7 && ((r7.ebx >>> 5) &&& 1) != 0 && hasAVX ECX m) ∧
      testF F FEATURE_AVX512F = (l7 && ((r7.ebx >>> 16) &&& 1) != 0 && hasAVX512Save ECX m) ∧
      testF F FEATURE_AVX512DQ = (l7 && ((r7.ebx >>> 17) &&& 1) != 0 && hasAVX512Save ECX m) ∧
      testF F FEATURE_AVX512IFMA = (l7 && ((r7.ebx >>> 21) &&& 1) != 0 && hasAVX512Save ECX m) ∧
      testF F FEATURE_AVX512PF = (l7 && ((r7.ebx >>> 26) &&& 1) != 0 && hasAVX512Save ECX m) ∧
      testF F FEATURE_AVX512ER = (l7 && ((r7.ebx >>> 27) &&& 1) != 0 && hasAVX512Save ECX m) ∧
      testF F FEATURE_AVX512CD = (l7 && ((r7.ebx >>> 28) &&& 1) != 0 && hasAVX512Save ECX m) ∧
      testF F FEATURE_AVX512BW = (l7 && ((r7.ebx >>> 30) &&& 1) != 0 && hasAVX512Save ECX m) ∧
      testF F FEATURE_AVX512VL = (l7 && ((r7.ebx >>> 31) &&& 1) != 0 && hasAVX512Save ECX m) ∧
      testF F FEATURE_AVX512VBMI = (l7 && ((r7.ecx >>> 1) &&& 1) != 0 && hasAVX512Save ECX m) ∧
      testF F FEATURE_AVX512VPOPCNTDQ =
        (l7 && ((r7.ecx >>> 14) &&& 1) != 0 && hasAVX512Save ECX m) ∧
      testF F FEATURE_AVX5124VNNIW = (l7 && ((r7.edx >>> 2) &&& 1) != 0 && hasAVX512Save ECX m) ∧
      testF F FEATURE_AVX5124FMAPS = (l7 && ((r7.edx >>> 3) &&& 1) != 0 && hasAVX512Save ECX m) ∧
      testF F FEATURE_XOP = (e1 && ((re1.ecx >>> 11) &&& 1) != 0) ∧
      testF F FEATURE_FMA4 = (e1 && ((re1.ecx >>> 16) &&& 1) != 0)) ∧
    (∀ (m : Machine), m.cpuidOk = true → 1 ≤ (m.cpuid 0 0).eax →
      let ECX := (m.cpuid 1 0).ecx
      let l7 := decide (7 ≤ (m.cpuid 0 0).eax) && m.cpuidOk
      let r7 := m.cpuid 0x7 0
      let e1 := hasExtLeaf1 m
      let re1 := m.cpuid 0x80000001 0
      featureVal m "avx" = some (hasAVXSave ECX m) ∧
      featureVal m "avx2" = some (hasAVXSave ECX m && l7 && ((r7.ebx >>> 5) &&& 1) != 0) ∧
      featureVal m "avx512f" =
        some (l7 && ((r7.ebx >>> 16) &&& 1) != 0 && hasAVX512SaveHF ECX m) ∧
      featureVal m "avx512dq" =
        some (l7 && ((r7.ebx >>> 17) &&& 1) != 0 && hasAVX512SaveHF ECX m) ∧
      featureVal m "avx512ifma" =
        some (l7 && ((r7.ebx >>> 21) &&& 1) != 0 && hasAVX512SaveHF ECX m) ∧
      featureVal m "avx512pf" =
        some (l7 && ((r7.ebx >>> 26) &&& 1) != 0 && hasAVX512SaveHF ECX m) ∧
      featureVal m "avx512er" =
        some (l7 && ((r7.ebx >>> 27) &&& 1) != 0 && hasAVX512SaveHF ECX m) ∧
      featureVal m "avx512cd" =
        some (l7 && ((r7.ebx >>> 28) &&& 1) != 0 && hasAVX512SaveHF ECX m) ∧
      featureVal m "avx512bw" =
        some (l7 && ((r7.ebx >>> 30) &&& 1) != 0 && hasAVX512SaveHF ECX m) ∧
      featureVal m "avx512vl" =
        some (l7 && ((r7.ebx >>> 31) &&& 1) != 0 && hasAVX512SaveHF ECX m) ∧
      featureVal m "avx512vbmi" =
        some (l7 && ((r7.ecx >>> 1) &&& 1) != 0 && hasAVX512SaveHF ECX m) ∧
      featureVal m "avx512vpopcntdq" =
        some (l7 && ((r7.ecx >>> 14) &&& 1) != 0 && hasAVX512SaveHF ECX m) ∧
      featureVal m "xop" =
        some (e1 && ((re1.ecx >>> 11) &&& 1) != 0 && hasAVXSave ECX m) ∧
      featureVal m "fma4" =
        some (e1 && ((re1.ecx >>> 16) &&& 1) != 0 && hasAVXSave ECX m)) := by
  constructor
  · intro ECX EDX MaxLeaf m
    refine ⟨?_, ?_, ?_, ?_, ?_, ?_, ?_, ?_, ?_, ?_, ?_, ?_, ?_, ?_, ?_, ?_⟩ <;>
      simp [getAvailableFeatures, testF_lor, testF_bitIf,
        FEATURE_CMOV, FEATURE_MMX, FEATURE_POPCNT, FEATURE_SSE, FEATURE_SSE2, FEATURE_SSE3,
        FEATURE_SSSE3, FEATURE_SSE4_1, FEATURE_SSE4_2, FEATURE_AVX, FEATURE_AVX2,
        FEATURE_SSE4_A, FEATURE_FMA4, FEATURE_XOP, FEATURE_FMA, FEATURE_AVX512F, FEATURE_BMI,
        FEATURE_BMI2, FEATURE_AES, FEATURE_PCLMUL, FEATURE_AVX512VL, FEATURE_AVX512BW,
        FEATURE_AVX512DQ, FEATURE_AVX512CD, FEATURE_AVX512ER, FEATURE_AVX512PF,
        FEATURE_AVX512VBMI, FEATURE_AVX512IFMA, FEATURE_AVX5124VNNIW, FEATURE_AVX5124FMAPS,
        FEATURE_AVX512VPOPCNTDQ]
  · intro m h1 h2
    have hlt : ¬ ((m.cpuid 0 0).eax < 1) := by omega
    refine ⟨?_, ?_, ?_, ?_, ?_, ?_, ?_, ?_, ?_, ?_, ?_, ?_, ?_, ?_⟩ <;>
      simp [featureVal, getHostCPUFeatures, h1, hlt, List.lookup]

/-- C2, witness: the amended theorem applied to the concrete machine
`xopMachine`, whose AVX gate fails, forces `avx` to be reported false. -/
theorem avx_gating_amended_witness :
    xopMachine.cpuidOk = true ∧ 1 ≤ (xopMachine.cpuid 0 0).eax ∧
    featureVal xopMachine "avx" = some false := by
  refine ⟨rfl, by decide, ?_⟩
  have h := (avx_gating_amended.2 xopMachine rfl (by decide)).1
  rw [h]
  decide

theorem intelNameForTS_fst_none (ts : Option Nat × Option Nat) (h : ts.1 = none) :
    intelNameForTS ts = .ok "generic" := by
  obtain ⟨t, s⟩ := ts
  simp only at h
  subst h
  simp [intelNameForTS]

theorem amdNameForTS_fst_none (ts : Option Nat × Option Nat) (h : ts.1 = none) :
    amdNameForTS ts = .ok "generic" := by
  obtain ⟨t, s⟩ := ts
  simp only at h
  subst h
  simp [amdNameForTS]

theorem intelTS_brand_nonzero (Family Model Brand_id Features Features2 : Nat)
    (h : Brand_id ≠ 0) :
    getIntelProcessorTypeAndSubtype Family Model Brand_id Features Features2 = (none, none) := by
  simp [getIntelProcessorTypeAndSubtype, h]

theorem intelFam6_unlisted (Model Features Features2 : Nat)
    (h : intelFam6Listed Model = false) :
    intelFamily6 Model Features Features2 = intelFam6Default Features Features2 := by
  unfold intelFam6Listed at h
  simp only [Bool.or_eq_false_iff, decide_eq_false_iff_not] at h
  obtain ⟨⟨⟨⟨⟨⟨⟨⟨⟨⟨⟨⟨⟨⟨⟨⟨⟨⟨c1, c2⟩, c3⟩, c4⟩, c5⟩, c6⟩, c7⟩, c8⟩, c9⟩, c10⟩, c11⟩, c12⟩,
    c13⟩, c14⟩, c15⟩, c16⟩, c17⟩, c18⟩, c19⟩ := h
  unfold intelFamily6
  rw [if_neg c1, if_neg c2, if_neg c3, if_neg c4, if_neg c5, if_neg c6,
    if_neg c7, if_neg c8, if_neg c9, if_neg c10, if_neg c11, if_neg c12, if_neg c13,
    if_neg c14, if_neg c15, if_neg c16, if_neg c17, if_neg c18, if_neg c19]

theorem intelFam6Default_name (Features Features2 : Nat) :
    intelNameForTS (intelFam6Default Features Features2) =
      Except.ok (intelFam6HeuristicName Features Features2) := by
  unfold intelFam6Default intelFam6HeuristicName
  by_cases h1 : testF Features FEATURE_AVX512F
  · by_cases h2 : testF Features FEATURE_AVX512VL <;> simp [h1, h2] <;> rfl
  · by_cases h2 : testF2 Features2 FEATURE_CLFLUSHOPT
    · by_cases h3 : testF2 Features2 FEATURE_SHA <;> simp [h1, h2, h3] <;> rfl
    · by_cases h3 : testF2 Features2 FEATURE_ADX
      · (simp [h1, h2, h3]; rfl)
      · by_cases h4 : testF Features FEATURE_AVX2
        · (simp [h1, h2, h3, h4]; rfl)
        · by_cases h5 : testF Features FEATURE_AVX
          · (simp [h1, h2, h3, h4, h5]; rfl)
          · by_cases h6 : testF Features FEATURE_SSE4_2
            · by_cases h7 : testF2 Features2 FEATURE_MOVBE <;>
                simp [h1, h2, h3, h4, h5, h6, h7] <;> rfl
            · by_cases h7 : testF Features FEATURE_SSE4_1
              · (simp [h1, h2, h3, h4, h5, h6, h7]; rfl)
              · by_cases h8 : testF Features FEATURE_SSSE3
                · by_cases h9 : testF2 Features2 FEATURE_MOVBE <;>
                    simp [h1, h2, h3, h4, h5, h6, h7, h8, h9] <;> rfl
                · by_cases h9 : testF2 Features2 FEATURE_EM64T
                  · (simp [h1, h2, h3, h4, h5, h6, h7, h8, h9]; rfl)
                  · by_cases h10 : testF Features FEATURE_SSE2
                    · (simp [h1, h2, h3, h4, h5, h6, h7, h8, h9, h10]; rfl)
                    · by_cases h11 : testF Features FEATURE_SSE
                      · (simp [h1, h2, h3, h4, h5, h6, h7, h8, h9, h10, h11]; rfl)
                      · by_cases h12 : testF Features FEATURE_MMX <;>
                          simp [h1, h2, h3, h4, h5, h6, h7, h8, h9, h10, h11, h12] <;> rfl

/-- C4: for every Intel family-6 model not listed in the model table,
the type/subtype chosen by `getIntelProcessorTypeAndSubtype` maps to
exactly the name given by the ordered feature cascade of the claim
(first matching predicate wins, in the claimed order). -/
theorem intelFam6_unlisted_cascade (Model Features Features2 : Nat)
    (h : intelFam6Listed Model = false) :
    intelNameForTS (getIntelProcessorTypeAndSubtype 6 Model 0 Features Features2) =
      Except.ok (intelFam6HeuristicName Features Features2) := by
  have h6 : getIntelProcessorTypeAndSubtype 6 Model 0 Features Features2 =
      intelFamily6 Model Features Features2 := by
    simp [getIntelProcessorTypeAndSubtype]
  rw [h6, intelFam6_unlisted Model Features Features2 h, intelFam6Default_name]

/-- C4, witness: model 0x100 is not in the family-6 table, and with no
feature bits set the cascade ends at "pentiumpro". -/
theorem intelFam6_unlisted_cascade_witness :
    intelFam6Listed 0x100 = false ∧
    intelNameForTS (getIntelProcessorTypeAndSubtype 6 0x100 0 0 0) =
      Except.ok (intelFam6HeuristicName 0 0) ∧
    intelFam6HeuristicName 0 0 = "pentiumpro" :=
  ⟨by decide, intelFam6_unlisted_cascade 0x100 0 0 (by decide), by decide⟩

/-- C3: Intel decoding assigns no type for a nonzero brand id, and every
vendor/family/model combination that the Intel or AMD tables leave
without a type (and every non-Intel, non-AMD vendor) makes
`getHostCPUName` return `"generic"` without reaching `llvm_unreachable`
(`Except.error`). -/
theorem getHostCPUName_generic_defaults :
    (∀ (Family Model Brand_id Features Features2 : Nat), Brand_id ≠ 0 →
      getIntelProcessorTypeAndSubtype Family Model Brand_id Features Features2 =
        (none, none)) ∧
    (∀ m : Machine, m.cpuidOk = true → 1 ≤ (m.cpuid 0 0).eax →
      let Vendor := (m.cpuid 0 0).ebx
      let r1 := m.cpuid 1 0
      let fm := detectX86FamilyModel r1.eax
      let fs := getAvailableFeatures r1.ecx r1.edx (m.cpuid 0 0).eax m
      (Vendor = SIG_INTEL → r1.ebx &&& 0xff ≠ 0 →
        getHostCPUName m = .ok "generic") ∧
      (Vendor = SIG_INTEL →
        (getIntelProcessorTypeAndSubtype fm.1 fm.2 (r1.ebx &&& 0xff) fs.1 fs.2).1 = none →
        getHostCPUName m = .ok "generic") ∧
      (Vendor = SIG_AMD → (getAMDProcessorTypeAndSubtype fm.1 fm.2 fs.1).1 = none →
        getHostCPUName m = .ok "generic") ∧
      (Vendor ≠ SIG_INTEL → Vendor ≠ SIG_AMD → getHostCPUName m = .ok "generic")) := by
  constructor
  · intro Family Model Brand_id Features Features2 h
    exact intelTS_brand_nonzero Family Model Brand_id Features Features2 h
  · intro m h1 h2
    have hlt : ¬ ((m.cpuid 0 0).eax < 1) := by omega
    refine ⟨?_, ?_, ?_, ?_⟩
    · intro hv hb
      simp only [getHostCPUName, h1, Bool.not_true, Bool.false_eq_true, if_false]
      simp only [if_neg hlt, if_pos hv]
      rw [intelTS_brand_nonzero _ _ _ _ _ hb]
      exact intelNameForTS_fst_none _ rfl
    · intro hv hts
      simp only [getHostCPUName, h1, Bool.not_true, Bool.false_eq_true, if_false]
      simp only [if_neg hlt, if_pos hv]
      exact intelNameForTS_fst_none _ hts
    · intro hv hts
      simp only [getHostCPUName, h1, Bool.not_true, Bool.false_eq_true, if_false]
      simp only [if_neg hlt]
      rw [if_neg (by simp [hv, SIG_INTEL, SIG_AMD]), if_pos hv]
      exact amdNameForTS_fst_none _ hts
    · intro hv1 hv2
      simp only [getHostCPUName, h1, Bool.not_true, Bool.false_eq_true, if_false]
      simp only [if_neg hlt, if_neg hv1, if_neg hv2]

/-- C3, witness: the theorem applied to `brandMachine`, an Intel-vendor
machine whose leaf-1 brand id byte is 1. -/
theorem getHostCPUName_generic_defaults_witness :
    (brandMachine.cpuid 0 0).ebx = SIG_INTEL ∧
    (brandMachine.cpuid 1 0).ebx &&& 0xff ≠ 0 ∧
    getHostCPUName brandMachine = .ok "generic" := by
  refine ⟨by decide, by decide, ?_⟩
  exact (getHostCPUName_generic_defaults.2 brandMachine rfl (by decide)).1
    (by decide) (by decide)

theorem specStore_branch (CP CC : Int) (items : List (Int × Int)) :
    (if (specStore CP).isSome && (specStore CC).isSome then
       (⟨none, none, insertPair ((specStore CP).getD 0, (specStore CC).getD 0) items⟩ :
         SpecCoreState)
     else ⟨specStore CP, specStore CC, items⟩) =
      ⟨specStore (if CP ≠ -1 ∧ CC ≠ -1 then
          (⟨-1, -1, insertPair (CP, CC) items⟩ : CoreScanState)
        else ⟨CP, CC, items⟩).curPhys,
       specStore (if CP ≠ -1 ∧ CC ≠ -1 then
          (⟨-1, -1, insertPair (CP, CC) items⟩ : CoreScanState)
        else ⟨CP, CC, items⟩).curCore,
       (if CP ≠ -1 ∧ CC ≠ -1 then (⟨-1, -1, insertPair (CP, CC) items⟩ : CoreScanState)
        else ⟨CP, CC, items⟩).items⟩ := by
  by_cases h1 : CP = -1 <;> by_cases h2 : CC = -1 <;> simp [specStore, h1, h2]

theorem coreScanLine_spec_rel (st : CoreScanState) (line : List Char) :
    specCoreScanLine ⟨specStore st.curPhys, specStore st.curCore, st.items⟩ line =
      ⟨specStore (coreScanLine st line).curPhys, specStore (coreScanLine st line).curCore,
        (coreScanLine st line).items⟩ := by
  unfold coreScanLine specCoreScanLine
  by_cases hg : (!startsWithL (llvmTrim line) ("physical id".data) &&
      !startsWithL (llvmTrim line) ("core id".data)) = true
  · simp [hg]
  · simp only [Bool.not_eq_true] at hg
    simp only [hg, Bool.false_eq_true, if_false]
    by_cases hn1 : llvmTrim (splitFirstChar ':' (llvmTrim line)).1 = "physical id".data
    · have hn2 : ¬ (llvmTrim (splitFirstChar ':' (llvmTrim line)).1 = "core id".data) := by
        rw [hn1]; decide
      cases hp : parseIntLLVM (llvmTrim (splitFirstChar ':' (llvmTrim line)).2)
      · simp only [hn1, hn2, hp, eq_self_iff_true, if_true, iff_false_intro hn2, if_false]
        exact specStore_branch st.curPhys st.curCore st.items
      · simp only [hn1, hn2, hp, eq_self_iff_true, if_true, iff_false_intro hn2, if_false]
        exact specStore_branch _ st.curCore st.items
    · by_cases hn2 : llvmTrim (splitFirstChar ':' (llvmTrim line)).1 = "core id".data
      · cases hp : parseIntLLVM (llvmTrim (splitFirstChar ':' (llvmTrim line)).2)
        · simp only [hn1, hn2, hp, eq_self_iff_true, if_true, iff_false_intro hn1, if_false]
          exact specStore_branch st.curPhys st.curCore st.items
        · simp only [hn1, hn2, hp, eq_self_iff_true, if_true, iff_false_intro hn1, if_false]
          exact specStore_branch st.curPhys _ st.items
      · simp only [iff_false_intro hn1, iff_false_intro hn2, if_false]
        exact specStore_branch st.curPhys st.curCore st.items

theorem digitVal_bound {c : Char} {d : Nat} (h : digitVal c = some d) : '0' ≤ c ∧ c ≤ '9' := by
  unfold digitVal at h
  by_cases hc : '0' ≤ c ∧ c ≤ '9'
  · exact hc
  · rw [if_neg hc] at h; cases h

theorem parseDigits_digits {l : List Char} {acc x : Nat} (h : parseDigits l acc = some x) :
    ∀ c ∈ l, '0' ≤ c ∧ c ≤ '9' := by
  induction l generalizing acc with
  | nil => intro c hc; cases hc
  | cons d rest ih =>
    intro c hc
    unfold parseDigits at h
    cases hd : digitVal d with
    | none => rw [hd] at h; cases h
    | some dv =>
      rw [hd] at h
      rcases List.mem_cons.mp hc with hc | hc
      · subst hc; exact digitVal_bound hd
      · exact ih h c hc

theorem parseUnsignedLLVM_digits {l : List Char} {x : Nat}
    (h : parseUnsignedLLVM l = some x) : l ≠ [] ∧ ∀ c ∈ l, '0' ≤ c ∧ c ≤ '9' := by
  cases l with
  | nil => simp [parseUnsignedLLVM] at h
  | cons c rest =>
    refine ⟨by simp, ?_⟩
    have h' : parseDigits (c :: rest) 0 = some x := h
    exact parseDigits_digits h'

theorem parseIntLLVM_chars {l : List Char} {v : Int} (h : parseIntLLVM l = some v) :
    l ≠ [] ∧ ∀ c ∈ l, c = '-' ∨ ('0' ≤ c ∧ c ≤ '9') := by
  cases l with
  | nil => simp [parseIntLLVM] at h
  | cons c rest =>
    refine ⟨by simp, ?_⟩
    by_cases hc : c = '-'
    · subst hc
      simp only [parseIntLLVM, if_pos rfl] at h
      cases hu : parseUnsignedLLVM rest with
      | none => rw [hu] at h; cases h
      | some u =>
        intro d hd
        rcases List.mem_cons.mp hd with hd | hd
        · exact Or.inl hd
        · exact Or.inr ((parseUnsignedLLVM_digits hu).2 d hd)
    · simp only [parseIntLLVM, if_neg hc] at h
      cases hu : parseUnsignedLLVM (c :: rest) with
      | none => rw [hu] at h; cases h
      | some u =>
        intro d hd
        exact Or.inr ((parseUnsignedLLVM_digits hu).2 d hd)

theorem token_char_facts {c : Char} (h : c = '-' ∨ ('0' ≤ c ∧ c ≤ '9')) :
    isTrimChar c = false ∧ c ≠ ':' ∧ c ≠ '\n' := by
  rcases h with rfl | ⟨h1, h2⟩
  · exact ⟨by decide, by decide, by decide⟩
  · refine ⟨?_, ?_, ?_⟩
    · have hs : (c == ' ') = false :=
        beq_eq_false_iff_ne.mpr (fun e => absurd (e ▸ h1) (by decide))
      have ht : (c == '\t') = false :=
        beq_eq_false_iff_ne.mpr (fun e => absurd (e ▸ h1) (by decide))
      have hn : (c == '\n') = false :=
        beq_eq_false_iff_ne.mpr (fun e => absurd (e ▸ h1) (by decide))
      have hv : (c == Char.ofNat 11) = false :=
        beq_eq_false_iff_ne.mpr (fun e => absurd (e ▸ h1) (by decide))
      have hf : (c == Char.ofNat 12) = false :=
        beq_eq_false_iff_ne.mpr (fun e => absurd (e ▸ h1) (by decide))
      have hr : (c == '\r') = false :=
        beq_eq_false_iff_ne.mpr (fun e => absurd (e ▸ h1) (by decide))
      simp [isTrimChar, hs, ht, hn, hv, hf, hr]
    · exact fun e => absurd (e ▸ h2) (by decide)
    · exact fun e => absurd (e ▸ h1) (by decide)

theorem splitNl_append (xs ys : List Char) (h : '\n' ∉ xs) :
    splitNl (xs ++ '\n' :: ys) = xs :: splitNl ys := by
  induction xs with
  | nil => simp [splitNl]
  | cons c xs ih =>
    have hc : c ≠ '\n' := fun e => h (e ▸ List.mem_cons_self c xs)
    have h' : '\n' ∉ xs := fun hm => h (List.mem_cons_of_mem c hm)
    simp only [List.cons_append, splitNl, beq_eq_false_iff_ne.mpr hc, Bool.false_eq_true,
      if_false]
    rw [show xs.append ('\n' :: ys) = xs ++ '\n' :: ys from rfl, ih h']

theorem splitNl_no_nl (l : List Char) (h : '\n' ∉ l) : splitNl l = [l] := by
  induction l with
  | nil => rfl
  | cons c xs ih =>
    have hc : c ≠ '\n' := fun e => h (e ▸ List.mem_cons_self c xs)
    have h' : '\n' ∉ xs := fun hm => h (List.mem_cons_of_mem c hm)
    simp only [splitNl, beq_eq_false_iff_ne.mpr hc, Bool.false_eq_true, if_false, ih h']

theorem startsWithL_append (p rest : List Char) : startsWithL (p ++ rest) p = true := by
  induction p with
  | nil => cases rest <;> rfl
  | cons c p ih => simp [startsWithL, ih]

theorem splitFirst_no_sep_append (sep : Char) (xs ys : List Char) (h : sep ∉ xs) :
    splitFirstChar sep (xs ++ sep :: ys) = (xs, ys) := by
  induction xs with
  | nil => simp [splitFirstChar]
  | cons c xs ih =>
    have hc : c ≠ sep := fun e => h (e ▸ List.mem_cons_self c xs)
    have h' : sep ∉ xs := fun hm => h (List.mem_cons_of_mem c hm)
    simp only [List.cons_append, splitFirstChar, beq_eq_false_iff_ne.mpr hc,
      Bool.false_eq_true, if_false]
    rw [show xs.append (sep :: ys) = xs ++ sep :: ys from rfl, ih h']

theorem llvmTrim_eq_self_ends (l : List Char)
    (hh : ∀ c, l.head? = some c → isTrimChar c = false)
    (hl : ∀ c, l.getLast? = some c → isTrimChar c = false) : llvmTrim l = l := by
  unfold llvmTrim
  have h1 : l.dropWhile isTrimChar = l := by
    cases l with
    | nil => rfl
    | cons c r => simp [List.dropWhile_cons, hh c rfl]
  rw [h1]
  have h2 : l.reverse.dropWhile isTrimChar = l.reverse := by
    cases hr : l.reverse with
    | nil => rfl
    | cons c r =>
      have hlast : l.getLast? = some c := by
        rw [← List.head?_reverse, hr]; rfl
      simp [List.dropWhile_cons, hl c hlast]
  rw [h2, List.reverse_reverse]

theorem llvmTrim_space_cons (a : List Char) : llvmTrim (' ' :: a) = llvmTrim a := by
  simp [llvmTrim, List.dropWhile_cons, isTrimChar]

theorem mem_of_head? {α : Type} {l : List α} {c : α} (h : l.head? = some c) : c ∈ l := by
  cases l with
  | nil => cases h
  | cons d r =>
    simp only [List.head?] at h
    cases h
    exact List.mem_cons_self _ _

theorem mem_of_getLast? {α : Type} {l : List α} {c : α} (h : l.getLast? = some c) : c ∈ l := by
  rw [← List.head?_reverse] at h
  exact List.mem_reverse.mp (mem_of_head? h)

theorem llvmTrim_of_parse {a : List Char} {v : Int} (hp : parseIntLLVM a = some v) :
    llvmTrim a = a := by
  have hchars := parseIntLLVM_chars hp
  apply llvmTrim_eq_self_ends
  · intro c hc
    exact (token_char_facts (hchars.2 c (mem_of_head? hc))).1
  · intro c hc
    exact (token_char_facts (hchars.2 c (mem_of_getLast? hc))).1

theorem physLineL_trim {a : List Char} {v : Int} (hp : parseIntLLVM a = some v) :
    llvmTrim (physLineL a) = physLineL a := by
  have hchars := parseIntLLVM_chars hp
  apply llvmTrim_eq_self_ends
  · intro c hc
    rw [show physLineL a = 'p' :: ("hysical id".data ++ ':' :: ' ' :: a) from rfl] at hc
    simp only [List.head?] at hc
    cases hc
    decide
  · intro c hc
    rw [show physLineL a = ("physical id".data ++ [':', ' ']) ++ a from by
      simp [physLineL]] at hc
    rw [List.getLast?_append_of_ne_nil _ hchars.1] at hc
    exact (token_char_facts (hchars.2 c (mem_of_getLast? hc))).1

theorem coreScanLine_physLine (st : CoreScanState) (a : List Char) (va : Int)
    (hp : parseIntLLVM a = some va) :
    coreScanLine st (physLineL a) =
      (if va ≠ -1 ∧ st.curCore ≠ -1 then
        ⟨-1, -1, insertPair (va, st.curCore) st.items⟩
      else ⟨va, st.curCore, st.items⟩) := by
  have hsw1 : startsWithL (physLineL a) ("physical id".data) = true := by
    rw [show physLineL a = ("physical id".data) ++ (':' :: ' ' :: a) from rfl]
    exact startsWithL_append _ _
  have hsw2 : startsWithL (physLineL a) ("core id".data) = false := by
    rw [show physLineL a = 'p' :: ("hysical id".data ++ ':' :: ' ' :: a) from rfl,
      show ("core id".data) = 'c' :: ("ore id".data) from rfl]
    simp only [startsWithL]
    rw [show (('p' == 'c') : Bool) = false from rfl]
    simp
  have hsplit : splitFirstChar ':' (physLineL a) = ("physical id".data, ' ' :: a) := by
    rw [show physLineL a = ("physical id".data) ++ (':' :: (' ' :: a)) from rfl]
    exact splitFirst_no_sep_append ':' _ _ (by decide)
  have hval : llvmTrim (' ' :: a) = a := by
    rw [llvmTrim_space_cons, llvmTrim_of_parse hp]
  unfold coreScanLine
  simp only [physLineL_trim hp, hsw1, hsw2, Bool.not_true, Bool.not_false, Bool.false_and,
    Bool.false_eq_true, if_false, hsplit]
  simp only [show llvmTrim ("physical id".data) = "physical id".data from by decide,
    eq_self_iff_true, if_true,
    iff_false_intro (show ¬ ("physical id".data = "core id".data) by decide), if_false,
    hval, hp]

theorem coreLineL_trim {a : List Char} {v : Int} (hp : parseIntLLVM a = some v) :
    llvmTrim (coreLineL a) = coreLineL a := by
  have hchars := parseIntLLVM_chars hp
  apply llvmTrim_eq_self_ends
  · intro c hc
    rw [show coreLineL a = 'c' :: ("ore id".data ++ ':' :: ' ' :: a) from rfl] at hc
    simp only [List.head?] at hc
    cases hc
    decide
  · intro c hc
    rw [show coreLineL a = ("core id".data ++ [':', ' ']) ++ a from by
      simp [coreLineL]] at hc
    rw [List.getLast?_append_of_ne_nil _ hchars.1] at hc
    exact (token_char_facts (hchars.2 c (mem_of_getLast? hc))).1

theorem coreScanLine_coreLine (st : CoreScanState) (a : List Char) (va : Int)
    (hp : parseIntLLVM a = some va) :
    coreScanLine st (coreLineL a) =
      (if st.curPhys ≠ -1 ∧ va ≠ -1 then
        ⟨-1, -1, insertPair (st.curPhys, va) st.items⟩
      else ⟨st.curPhys, va, st.items⟩) := by
  have hsw1 : startsWithL (coreLineL a) ("physical id".data) = false := by
    rw [show coreLineL a = 'c' :: ("ore id".data ++ ':' :: ' ' :: a) from rfl,
      show ("physical id".data) = 'p' :: ("hysical id".data) from rfl]
    simp only [startsWithL]
    rw [show (('c' == 'p') : Bool) = false from rfl]
    simp
  have hsw2 : startsWithL (coreLineL a) ("core id".data) = true := by
    rw [show coreLineL a = ("core id".data) ++ (':' :: ' ' :: a) from rfl]
    exact startsWithL_append _ _
  have hsplit : splitFirstChar ':' (coreLineL a) = ("core id".data, ' ' :: a) := by
    rw [show coreLineL a = ("core id".data) ++ (':' :: (' ' :: a)) from rfl]
    exact splitFirst_no_sep_append ':' _ _ (by decide)
  have hval : llvmTrim (' ' :: a) = a := by
    rw [llvmTrim_space_cons, llvmTrim_of_parse hp]
  unfold coreScanLine
  simp only [coreLineL_trim hp, hsw1, hsw2, Bool.not_true, Bool.not_false, Bool.and_false,
    Bool.false_eq_true, if_false, hsplit]
  simp only [show llvmTrim ("core id".data) = "core id".data from by decide,
    eq_self_iff_true, if_true,
    iff_false_intro (show ¬ ("core id".data = "physical id".data) by decide), if_false,
    hval, hp]

theorem foldl_coreScan_spec_rel (lines : List (List Char)) (st : CoreScanState) :
    lines.foldl specCoreScanLine ⟨specStore st.curPhys, specStore st.curCore, st.items⟩ =
      ⟨specStore (lines.foldl coreScanLine st).curPhys,
       specStore (lines.foldl coreScanLine st).curCore,
       (lines.foldl coreScanLine st).items⟩ := by
  induction lines generalizing st with
  | nil => rfl
  | cons l rest ih =>
    simp only [List.foldl_cons]
    rw [coreScanLine_spec_rel st l]
    exact ih (coreScanLine st l)

theorem count_eq_specCount (content : List Char) :
    computeHostNumPhysicalCoresFromContent content = specPhysicalCoreCount content := by
  unfold computeHostNumPhysicalCoresFromContent specPhysicalCoreCount physicalCoresItems
  have h := foldl_coreScan_spec_rel ((splitNl content).filter (fun l => l ≠ [])) ⟨-1, -1, []⟩
  have e : (⟨specStore (-1 : Int), specStore (-1 : Int), ([] : List (Int × Int))⟩ :
      SpecCoreState) = ⟨none, none, []⟩ := by simp [specStore]
  rw [e] at h
  rw [h]

theorem noNl_physLine {a : List Char} {v : Int} (hp : parseIntLLVM a = some v) :
    '\n' ∉ physLineL a := by
  intro hm
  rw [show physLineL a = ("physical id".data ++ [':', ' ']) ++ a from by
    simp [physLineL]] at hm
  rcases List.mem_append.mp hm with hm | hm
  · revert hm; decide
  · exact (token_char_facts ((parseIntLLVM_chars hp).2 _ hm)).2.2 rfl

theorem noNl_coreLine {a : List Char} {v : Int} (hp : parseIntLLVM a = some v) :
    '\n' ∉ coreLineL a := by
  intro hm
  rw [show coreLineL a = ("core id".data ++ [':', ' ']) ++ a from by
    simp [coreLineL]] at hm
  rcases List.mem_append.mp hm with hm | hm
  · revert hm; decide
  · exact (token_char_facts ((parseIntLLVM_chars hp).2 _ hm)).2.2 rfl

theorem physLineL_ne_nil (a : List Char) : physLineL a ≠ [] := by
  unfold physLineL
  rw [show ("physical id".data) = 'p' :: ("hysical id".data) from rfl]
  simp

theorem coreLineL_ne_nil (a : List Char) : coreLineL a ≠ [] := by
  unfold coreLineL
  rw [show ("core id".data) = 'c' :: ("ore id".data) from rfl]
  simp

theorem fourBlock_count (a b c d : List Char) (pa ca pb cb : Int)
    (hpa : parseIntLLVM a = some pa) (hca : parseIntLLVM b = some ca)
    (hpb : parseIntLLVM c = some pb) (hcb : parseIntLLVM d = some cb)
    (h1 : pa ≠ -1) (h2 : ca ≠ -1) (h3 : pb ≠ -1) (h4 : cb ≠ -1)
    (hne : (pa, ca) ≠ (pb, cb)) :
    computeHostNumPhysicalCoresFromContent (fourBlockInput a b c d) = 2 := by
  have hne' : ¬ ((pb, cb) = (pa, ca)) := fun e => hne e.symm
  have hlines : splitNl (fourBlockInput a b c d) =
      [physLineL a, coreLineL b, physLineL c, coreLineL d,
       physLineL a, coreLineL b, physLineL c, coreLineL d] := by
    unfold fourBlockInput
    rw [splitNl_append _ _ (noNl_physLine hpa), splitNl_append _ _ (noNl_coreLine hca),
      splitNl_append _ _ (noNl_physLine hpb), splitNl_append _ _ (noNl_coreLine hcb),
      splitNl_append _ _ (noNl_physLine hpa), splitNl_append _ _ (noNl_coreLine hca),
      splitNl_append _ _ (noNl_physLine hpb), splitNl_no_nl _ (noNl_coreLine hcb)]
  have s1 : ∀ items : List (Int × Int), coreScanLine ⟨-1, -1, items⟩ (physLineL a) =
      ⟨pa, -1, items⟩ := by
    intro items
    rw [coreScanLine_physLine _ _ _ hpa, if_neg (by simp)]
  have s3 : ∀ items : List (Int × Int), coreScanLine ⟨-1, -1, items⟩ (physLineL c) =
      ⟨pb, -1, items⟩ := by
    intro items
    rw [coreScanLine_physLine _ _ _ hpb, if_neg (by simp)]
  have s2 : ∀ items : List (Int × Int), coreScanLine ⟨pa, -1, items⟩ (coreLineL b) =
      ⟨-1, -1, insertPair (pa, ca) items⟩ := by
    intro items
    rw [coreScanLine_coreLine _ _ _ hca, if_pos ⟨h1, h2⟩]
  have s4 : ∀ items : List (Int × Int), coreScanLine ⟨pb, -1, items⟩ (coreLineL d) =
      ⟨-1, -1, insertPair (pb, cb) items⟩ := by
    intro items
    rw [coreScanLine_coreLine _ _ _ hcb, if_pos ⟨h3, h4⟩]
  unfold computeHostNumPhysicalCoresFromContent physicalCoresItems
  rw [hlines]
  simp only [List.filter_cons, List.filter_nil, decide_eq_true_eq, ne_eq,
    iff_true_intro (physLineL_ne_nil a), iff_true_intro (physLineL_ne_nil c),
    iff_true_intro (coreLineL_ne_nil b), iff_true_intro (coreLineL_ne_nil d),
    not_false_iff, decide_eq_true_eq, if_true]
  simp only [List.foldl_cons, List.foldl_nil]
  rw [s1, s2, s3, s4, s1, s2, s3, s4]
  have e1 : insertPair (pa, ca) [] = [(pa, ca)] := by simp [insertPair]
  have e2 : insertPair (pb, cb) [(pa, ca)] = [(pa, ca), (pb, cb)] := by
    simp [insertPair, hne']
  have e3 : insertPair (pa, ca) [(pa, ca), (pb, cb)] = [(pa, ca), (pb, cb)] := by
    simp [insertPair]
  have e4 : insertPair (pb, cb) [(pa, ca), (pb, cb)] = [(pa, ca), (pb, cb)] := by
    simp [insertPair]
  rw [e1, e2, e3, e4]
  rfl

/-- C5, counterexample: the scanner uses -1 as its "unseen" sentinel, so
on a buffer whose physical id parses to -1 the code records no pair (it
returns 0), while the claim's reading ("once both have been seen")
records the pair (-1, 0) and returns 1. -/
theorem physicalCores_sentinel_cex :
    computeHostNumPhysicalCoresFromContent sentinelCoresInput = 0 ∧
    claimPhysicalCoreCount sentinelCoresInput = 1 :=
  ⟨by decide, by decide⟩

/-- C5, amended: the Linux/x86-64 counter returns the cardinality of the
set of distinct (physical id, core id) pairs formed by scanning the
trimmed non-empty lines, pairing the ids once both holders have been
seen with a value other than -1 (the scanner's "unseen" sentinel) and
then resetting both; in particular an input whose id lines strictly
alternate through two distinct sentinel-free pairs repeated across four
processor blocks counts 2. -/
theorem physicalCores_count_amended :
    (∀ content : List Char,
      computeHostNumPhysicalCoresFromContent content = specPhysicalCoreCount content) ∧
    (∀ (a b c d : List Char) (pa ca pb cb : Int),
      parseIntLLVM a = some pa → parseIntLLVM b = some ca →
      parseIntLLVM c = some pb → parseIntLLVM d = some cb →
      pa ≠ -1 → ca ≠ -1 → pb ≠ -1 → cb ≠ -1 → (pa, ca) ≠ (pb, cb) →
      computeHostNumPhysicalCoresFromContent (fourBlockInput a b c d) = 2) :=
  ⟨count_eq_specCount, fun a b c d pa ca pb cb h1 h2 h3 h4 h5 h6 h7 h8 h9 =>
    fourBlock_count a b c d pa ca pb cb h1 h2 h3 h4 h5 h6 h7 h8 h9⟩

/-- C5, witness: the amended theorem applied to the concrete four-block
input with pairs (0, 0) and (0, 1). -/
theorem physicalCores_count_amended_witness :
    parseIntLLVM ("0".data) = some 0 ∧ parseIntLLVM ("1".data) = some 1 ∧
    computeHostNumPhysicalCoresFromContent
      (fourBlockInput ("0".data) ("0".data) ("0".data) ("1".data)) = 2 := by
  refine ⟨by decide, by decide, ?_⟩
  exact physicalCores_count_amended.2 ("0".data) ("0".data) ("0".data) ("1".data) 0 0 0 1
    (by decide) (by decide) (by decide) (by decide) (by decide) (by decide) (by decide)
    (by decide) (by decide)

/-- C10: the core counter returns -1 exactly on a failed read; every
successfully read buffer yields a nonnegative count, and a buffer that
completes no (physical id, core id) pair — the empty buffer included —
yields 0, not -1. -/
theorem computeHostNumPhysicalCores_error_convention :
    computeHostNumPhysicalCores none = -1 ∧
    (∀ s : List Char, 0 ≤ computeHostNumPhysicalCores (some s)) ∧
    (∀ s : List Char, physicalCoresItems s = [] →
      computeHostNumPhysicalCores (some s) = 0) ∧
    computeHostNumPhysicalCores (some []) = 0 := by
  refine ⟨rfl, ?_, ?_, by decide⟩
  · intro s
    exact Int.natCast_nonneg _
  · intro s h
    simp [computeHostNumPhysicalCores, computeHostNumPhysicalCoresFromContent, h]

/-- C10, witness: the pair-free clause applied to the empty buffer. -/
theorem computeHostNumPhysicalCores_error_convention_witness :
    physicalCoresItems [] = [] ∧ computeHostNumPhysicalCores (some []) = 0 :=
  ⟨by decide, computeHostNumPhysicalCores_error_convention.2.2.1 [] (by decide)⟩

theorem s390FeatureTokens_eq (lines : List (List Char)) :
    s390FeatureTokens lines =
      (match lines.find? (fun l => startsWithL l ("features".data) && l.contains ':') with
       | some l => splitChar ' ' ((splitFirstChar ':' l).2)
       | none => []) := by
  induction lines with
  | nil => rfl
  | cons l rest ih =>
    unfold s390FeatureTokens
    by_cases h1 : startsWithL l ("features".data) = true <;>
      by_cases h2 : ':' ∈ l <;>
        simp [List.find?_cons, h1, h2, ih]

theorem s390Vx_eq_amended (lines : List (List Char)) :
    (s390FeatureTokens lines).contains ("vx".data) = s390AmendedVx lines := by
  rw [s390FeatureTokens_eq]
  unfold s390AmendedVx
  cases h : lines.find? (fun l => startsWithL l ("features".data) && l.contains ':') <;>
    simp [h]

theorem s390MachineId_eq_amended (lines : List (List Char)) :
    s390MachineId lines = s390AmendedMachineId lines := by
  induction lines with
  | nil => rfl
  | cons l rest ih =>
    unfold s390MachineId
    by_cases h1 : startsWithL l ("processor ".data) = true
    · simp [s390AmendedMachineId, List.find?_cons, h1]
    · rw [if_neg h1, ih]
      simp [s390AmendedMachineId, List.find?_cons, h1]

/-- C6, counterexample: on a buffer whose first "features" line has no
colon (so the code keeps scanning and takes "vx" from the second one)
and whose first "processor " line has no "machine = " field (so the
code stops there and returns "generic"), the claim's literal reading
(first features line, first processor line containing "machine = ")
predicts "zEC12" while the code returns "generic". -/
theorem s390_claim_reading_cex :
    getHostCPUNameForS390x s390CexInput = "generic" ∧
    s390ClaimName s390CexInput = "zEC12" ∧
    getHostCPUNameForS390x s390CexInput ≠ s390ClaimName s390CexInput :=
  ⟨by decide, by decide, by decide⟩

/-- C6, amended: vector support is the token "vx" in the first line
starting "features" that contains a colon; the machine id is read only
from the first line starting "processor " (and only when that line
contains "machine = ", parsed as decimal); the id maps by descending
thresholds (≥ 3906 with vector → "z14"; ≥ 2964 with vector → "z13";
≥ 2827 → "zEC12"; ≥ 2817 → "z196"; else "generic"); in particular 2827
without "vx" gives "zEC12", 2964 with "vx" gives "z13", and 2964 without
"vx" gives "zEC12". -/
theorem s390x_rules_amended :
    (∀ content : List Char,
      getHostCPUNameForS390x content =
        s390Thresholds (s390AmendedVx (splitNl content))
          (s390AmendedMachineId (splitNl content))) ∧
    getHostCPUNameForS390x s390Input2827 = "zEC12" ∧
    getHostCPUNameForS390x s390Input2964vx = "z13" ∧
    getHostCPUNameForS390x s390Input2964 = "zEC12" := by
  refine ⟨?_, by decide, by decide, by decide⟩
  intro content
  simp only [getHostCPUNameForS390x]
  rw [s390Vx_eq_amended, s390MachineId_eq_amended]

/-- C7: the ARM decoder returns "cortex-a53" whenever the implementer is
"0x41" and the hardware string ends in MSM8994/MSM8996, regardless of
the CPU part; otherwise implementers "0x41"/"0x51" map the first "CPU
part" token through their fixed tables (default "generic", "generic"
when no part line exists), and any other implementer gives "generic". -/
theorem getHostCPUNameForARM_rules (content : List Char) :
    ((armImplHw (splitNl content)).1 = "0x41".data →
      (endsWithL (armImplHw (splitNl content)).2 ("MSM8994".data) ||
       endsWithL (armImplHw (splitNl content)).2 ("MSM8996".data)) = true →
      getHostCPUNameForARM content = "cortex-a53") ∧
    ((armImplHw (splitNl content)).1 = "0x41".data →
      (endsWithL (armImplHw (splitNl content)).2 ("MSM8994".data) ||
       endsWithL (armImplHw (splitNl content)).2 ("MSM8996".data)) = false →
      getHostCPUNameForARM content =
        (match armFirstPart (splitNl content) with
         | some tok => armPartTable tok
         | none => "generic")) ∧
    ((armImplHw (splitNl content)).1 = "0x51".data →
      getHostCPUNameForARM content =
        (match armFirstPart (splitNl content) with
         | some tok => qualcommPartTable tok
         | none => "generic")) ∧
    ((armImplHw (splitNl content)).1 ≠ "0x41".data →
      (armImplHw (splitNl content)).1 ≠ "0x51".data →
      getHostCPUNameForARM content = "generic") := by
  refine ⟨?_, ?_, ?_, ?_⟩
  · intro h1 h2
    simp only [getHostCPUNameForARM, h1, h2, eq_self_iff_true, if_true]
  · intro h1 h2
    simp only [getHostCPUNameForARM, h1, h2, eq_self_iff_true, if_true, Bool.false_eq_true,
      if_false]
  · intro h1
    simp only [getHostCPUNameForARM, h1, eq_self_iff_true, if_true,
      iff_false_intro (show ¬ (("0x51".data : List Char) = "0x41".data) by decide), if_false]
  · intro h1 h2
    simp only [getHostCPUNameForARM, iff_false_intro h1, iff_false_intro h2, if_false]

/-- C7, witness: the rules applied to a buffer with implementer 0x41,
part 0xd07 (a Cortex-A57 id), and hardware ending MSM8996: the override
wins and "cortex-a53" is returned. -/
theorem getHostCPUNameForARM_rules_witness :
    (armImplHw (splitNl armMsmInput)).1 = "0x41".data ∧
    (endsWithL (armImplHw (splitNl armMsmInput)).2 ("MSM8994".data) ||
     endsWithL (armImplHw (splitNl armMsmInput)).2 ("MSM8996".data)) = true ∧
    getHostCPUNameForARM armMsmInput = "cortex-a53" := by
  refine ⟨by decide, by decide, ?_⟩
  exact (getHostCPUNameForARM_rules armMsmInput).1 (by decide) (by decide)

theorem armImplHw_foldl_aux (lines : List (List Char)) (acc : List Char × List Char) :
    lines.foldl (fun acc l =>
      ((if startsWithL l ("CPU implementer".data) then ltrimTabSpColon (l.drop 15)
        else acc.1),
       (if startsWithL l ("Hardware".data) then ltrimTabSpColon (l.drop 8) else acc.2)))
      acc =
      ((match lines.reverse.find? (fun l => startsWithL l ("CPU implementer".data)) with
        | some l => ltrimTabSpColon (l.drop 15)
        | none => acc.1),
       (match lines.reverse.find? (fun l => startsWithL l ("Hardware".data)) with
        | some l => ltrimTabSpColon (l.drop 8)
        | none => acc.2)) := by
  induction lines generalizing acc with
  | nil => simp
  | cons l rest ih =>
    simp only [List.foldl_cons, List.reverse_cons, List.find?_append, ih]
    cases h1 : rest.reverse.find? (fun l => startsWithL l ("CPU implementer".data)) <;>
      cases h2 : rest.reverse.find? (fun l => startsWithL l ("Hardware".data)) <;>
        by_cases hp1 : startsWithL l ("CPU implementer".data) = true <;>
          by_cases hp2 : startsWithL l ("Hardware".data) = true <;>
            simp [List.find?_cons, h1, h2, hp1, hp2]

theorem armFirstPart_eq_find (lines : List (List Char)) :
    armFirstPart lines =
      (lines.find? (fun l => startsWithL l ("CPU part".data))).map
        (fun l => ltrimTabSpColon (l.drop 8)) := by
  induction lines with
  | nil => rfl
  | cons l rest ih =>
    unfold armFirstPart
    by_cases hp : startsWithL l ("CPU part".data) = true <;> simp [List.find?_cons, hp, ih]

/-- C9: in the ARM decoder the implementer and hardware values come from
the LAST matching line (the scan overwrites without stopping — the first
match when scanning the reversed line list), while the CPU part token
comes from the FIRST matching line; concretely, a buffer with
implementer lines 0x51 then 0x41 and part lines 0xd03 then 0xc08 decodes
as implementer 0x41 with part 0xd03, giving "cortex-a53". -/
theorem arm_last_impl_first_part :
    (∀ lines : List (List Char),
      armImplHw lines =
        ((match lines.reverse.find? (fun l => startsWithL l ("CPU implementer".data)) with
          | some l => ltrimTabSpColon (l.drop 15)
          | none => []),
         (match lines.reverse.find? (fun l => startsWithL l ("Hardware".data)) with
          | some l => ltrimTabSpColon (l.drop 8)
          | none => []))) ∧
    (∀ lines : List (List Char),
      armFirstPart lines =
        (lines.find? (fun l => startsWithL l ("CPU part".data))).map
          (fun l => ltrimTabSpColon (l.drop 8))) ∧
    getHostCPUNameForARM armMultiLineInput = "cortex-a53" :=
  ⟨fun lines => armImplHw_foldl_aux lines ([], []), armFirstPart_eq_find, by decide⟩

theorem takeWhile_append_stop {p : Char → Bool} (xs ys : List Char) {c : Char}
    (hc : p c = false) : (xs ++ c :: ys).takeWhile p = xs.takeWhile p := by
  induction xs with
  | nil => simp [List.takeWhile_cons, hc]
  | cons a xs ih => cases ha : p a <;> simp [List.takeWhile_cons, ha, ih]

theorem dropWhile_append_nil {p : Char → Bool} {xs : List Char} (ys : List Char)
    (h : xs.dropWhile p = []) : (xs ++ ys).dropWhile p = ys.dropWhile p := by
  rw [List.dropWhile_append, h]
  rfl

theorem dropWhile_append_cons {p : Char → Bool} {xs : List Char} (ys : List Char)
    {d : Char} {r : List Char} (h : xs.dropWhile p = d :: r) :
    (xs ++ ys).dropWhile p = d :: (r ++ ys) := by
  rw [List.dropWhile_append, h]
  rfl

theorem matchCpuAt_vs_line (l : List Char) :
    matchCpuAt l = matchCpuLine l ∨
      (matchCpuAt l = none ∧ matchCpuLine l = some []) := by
  unfold matchCpuAt matchCpuLine
  rcases l with _ | ⟨c1, s1⟩
  · exact Or.inl rfl
  cases hc1 : (c1 == 'c') with
  | false => left; simp [hc1]
  | true =>
  rcases s1 with _ | ⟨c2, s2⟩
  · left; simp [hc1]
  cases hc2 : (c2 == 'p') with
  | false => left; simp [hc1, hc2]
  | true =>
  rcases s2 with _ | ⟨c3, s3⟩
  · left; simp [hc1, hc2]
  cases hc3 : (c3 == 'u') with
  | false => left; simp [hc1, hc2, hc3]
  | true =>
  cases h4 : s3.dropWhile isSpTab with
  | nil => left; simp [hc1, hc2, hc3, h4]
  | cons c4 s4 =>
  cases hc4 : (c4 == ':') with
  | false => left; simp [hc1, hc2, hc3, h4, hc4]
  | true =>
  cases h5 : s4.dropWhile isSpTab with
  | nil => right; constructor <;> simp [hc1, hc2, hc3, h4, hc4, h5]
  | cons d r4 => left; simp [hc1, hc2, hc3, h4, hc4, h5]

theorem matchCpuAt_append_line (line rest : List Char) :
    matchCpuAt (line ++ '\n' :: rest) = matchCpuLine line := by
  unfold matchCpuAt matchCpuLine
  rcases line with _ | ⟨c1, s1⟩
  · simp [show (('\n' == 'c') : Bool) = false from rfl]
  simp only [List.cons_append]
  cases hc1 : (c1 == 'c') with
  | false => simp [hc1]
  | true =>
  rcases s1 with _ | ⟨c2, s2⟩
  · simp [hc1, show (('\n' == 'p') : Bool) = false from rfl]
  simp only [List.cons_append]
  cases hc2 : (c2 == 'p') with
  | false => simp [hc1, hc2]
  | true =>
  rcases s2 with _ | ⟨c3, s3⟩
  · simp [hc1, hc2, show (('\n' == 'u') : Bool) = false from rfl]
  simp only [List.cons_append]
  cases hc3 : (c3 == 'u') with
  | false => simp [hc1, hc2, hc3]
  | true =>
  cases h4 : s3.dropWhile isSpTab with
  | nil =>
    have hd : (s3 ++ '\n' :: rest).dropWhile isSpTab = '\n' :: rest := by
      rw [dropWhile_append_nil _ h4]
      simp [List.dropWhile_cons, isSpTab]
    simp [hc1, hc2, hc3, h4, hd, show (('\n' == ':') : Bool) = false from rfl]
  | cons c4 s4 =>
    have hd : (s3 ++ '\n' :: rest).dropWhile isSpTab = c4 :: (s4 ++ '\n' :: rest) :=
      dropWhile_append_cons _ h4
    cases hc4 : (c4 == ':') with
    | false => simp [hc1, hc2, hc3, h4, hd, hc4]
    | true =>
      cases h5 : s4.dropWhile isSpTab with
      | nil =>
        have hd5 : (s4 ++ '\n' :: rest).dropWhile isSpTab = '\n' :: rest := by
          rw [dropWhile_append_nil _ h5]
          simp [List.dropWhile_cons, isSpTab]
        simp [hc1, hc2, hc3, h4, hd, hc4, h5, hd5, List.takeWhile_cons, isTokStop]
      | cons d r4 =>
        have hd5 : (s4 ++ '\n' :: rest).dropWhile isSpTab = d :: (r4 ++ '\n' :: rest) :=
          dropWhile_append_cons _ h5
        have ht : ((d :: r4) ++ '\n' :: rest).takeWhile (fun c => !(isTokStop c)) =
            (d :: r4).takeWhile (fun c => !(isTokStop c)) :=
          takeWhile_append_stop _ _ (by simp [isTokStop])
        simp only [List.cons_append] at ht
        simp [hc1, hc2, hc3, h4, hd, hc4, h5, hd5, ht]

theorem dropNl_structure {s : List Char} (h : '\n' ∈ s) :
    ∃ r, s.dropWhile (fun c => !(c == '\n')) = '\n' :: r := by
  induction s with
  | nil => cases h
  | cons c s ih =>
    by_cases hc : c = '\n'
    · subst hc
      exact ⟨s, by simp [List.dropWhile_cons]⟩
    · rcases List.mem_cons.mp h with h' | h'
      · exact absurd h'.symm hc
      · obtain ⟨r, hr⟩ := ih h'
        exact ⟨r, by simp [List.dropWhile_cons, beq_eq_false_iff_ne.mpr hc, hr]⟩

theorem dropNl_eq_nil {s : List Char} (h : '\n' ∉ s) :
    s.dropWhile (fun c => !(c == '\n')) = [] := by
  rw [List.dropWhile_eq_nil_iff]
  intro x hx
  have hne : x ≠ '\n' := by
    intro e
    exact h (e ▸ hx)
  simp [beq_eq_false_iff_ne.mpr hne]

theorem nl_not_mem_takeNl (s : List Char) :
    '\n' ∉ s.takeWhile (fun c => !(c == '\n')) := by
  intro h
  have := List.mem_takeWhile_imp h
  simp at this

theorem scanPPCAux_lines : ∀ (n : Nat) (s : List Char), s.length < n →
    ppcNameOf (scanPPCAux n s) = ppcNameOf ((splitNl s).findSome? matchCpuLine) := by
  intro n
  induction n with
  | zero => intro s h; omega
  | succ m ih =>
    intro s h
    by_cases hnl : '\n' ∈ s
    · obtain ⟨r, hr⟩ := dropNl_structure hnl
      have hs : s = s.takeWhile (fun c => !(c == '\n')) ++ '\n' :: r := by
        conv_lhs => rw [← List.takeWhile_append_dropWhile (fun c => !(c == '\n')) s]
        rw [hr]
      have hlen : r.length < m := by
        have hlc := congrArg List.length hs
        simp [List.length_append] at hlc
        omega
      have hAt : matchCpuAt s = matchCpuLine (s.takeWhile (fun c => !(c == '\n'))) := by
        conv_lhs => rw [hs]
        exact matchCpuAt_append_line _ _
      have hsplit : splitNl s =
          s.takeWhile (fun c => !(c == '\n')) :: splitNl r := by
        conv_lhs => rw [hs]
        exact splitNl_append _ _ (nl_not_mem_takeNl s)
      rw [scanPPCAux, hAt, hsplit, List.findSome?_cons]
      cases hm : matchCpuLine (s.takeWhile (fun c => !(c == '\n'))) with
      | some t => rfl
      | none =>
        rw [hr]
        exact ih r hlen
    · have hdrop := dropNl_eq_nil hnl
      have hsplit : splitNl s = [s] := splitNl_no_nl s hnl
      rw [scanPPCAux, hsplit, List.findSome?_cons]
      rcases matchCpuAt_vs_line s with heq | ⟨hA, hL⟩
      · rw [heq]
        cases hm : matchCpuLine s with
        | some t => rfl
        | none =>
          rw [hdrop]
          rfl
      · rw [hA, hL, hdrop]
        rfl

/-- C8: the byte-by-byte scanner of `getHostCPUNameForPowerPC` computes
exactly the line-level description of the claim: the first line whose
trimmed prefix is exactly `cpu` followed (after optional spaces/tabs)
by a colon supplies the token after the colon (up to the next space,
tab, comma, or newline), mapped through the fixed table with default
"generic"; no such line (the empty buffer included) or an unmatched
token gives "generic"; e.g. "POWER9" maps to "pwr9" and "POWER8E" to
"pwr8". -/
theorem ppc_byte_scan_eq_line_spec :
    (∀ content : List Char, getHostCPUNameForPowerPC content = ppcLineSpecName content) ∧
    getHostCPUNameForPowerPC ppcInput9 = "pwr9" ∧
    getHostCPUNameForPowerPC ppcInput8E = "pwr8" ∧
    getHostCPUNameForPowerPC [] = "generic" := by
  refine ⟨?_, by decide, by decide, rfl⟩
  intro content
  exact scanPPCAux_lines (content.length + 1) content (by omega)
